import Mathlib

/-
  Verification of the drip-campaign and reply-classification core of the
  Email-automation-agent repository.

  The development shallowly embeds the relevant Python code:

  * `DripLogic` embeds `drip_logic.py` (the `DripCampaignManager` drip
    scheduler working over the `models.py` ORM rows) together with the
    interval table of `config.py`.  Timestamps are natural numbers counted
    in days; the SQL three-valued semantics of `status != 'replied'`
    (false on NULL) is embedded explicitly.
  * `Mail` embeds `mail_service.py` (the `MailService` reply-ingestion
    pipeline: `agent_3_reply_checking`,
    `update_reply_status_and_check_sentiment`, the per-branch response
    senders, `_extract_main_reply`, `analyze_reply_sentiment`, and the
    `Re:`-subject computation shared by the response senders).

  External effects (the language-model calls, SMTP success, generated
  Message-IDs, and unexpected per-contact exceptions) are supplied by an
  environment record; the database session is modelled as a pair of
  ledger states (current session view, last committed state) so that
  `commit` and `rollback` have their SQLAlchemy meaning.
-/

namespace DripLogic

/-- A row of the `first` table as used by `drip_logic.py` / `models.py`.
Timestamps are days (Nat); nullable columns are `Option`.  The
`mail_sent_status` / `first_mail_date` columns exist on the table (they are
mapped by `tables.py`) but are not mapped by `models.py` and are never read
or written by `drip_logic.py`; they are carried here so that claims about
them can be stated. -/
structure Contact where
  id : Nat
  email : String
  status : Option String
  mail_sent_status : Option Nat
  first_mail_date : Option Nat
  last_email_sent : Option Nat
  drip1_date : Option Nat
  drip2_date : Option Nat
  drip3_date : Option Nat
deriving DecidableEq, Repr

/-- `DripCampaignManager.__init__`: the drip interval table
`{1: 0, 2: 3, 3: 5}` (days). -/
def drip_intervals : Nat → Nat
  | 1 => 0
  | 2 => 3
  | 3 => 5
  | _ => 0

/-- `config.py` `DRIP_INTERVALS = {1: 0, 2: 3, 3: 5}`. -/
def DRIP_INTERVALS : Nat → Nat
  | 1 => 0
  | 2 => 3
  | 3 => 5
  | _ => 0

/-- SQL three-valued truth of the filter `Contact.status != 'replied'`:
a NULL status makes the comparison NULL, which filters the row out. -/
def statusNeReplied : Option String → Bool
  | none => false
  | some s => s ≠ "replied"

/-- One outbound drip email, as produced by `send_drip_email`. -/
structure SentEmail where
  contactId : Nat
  dripNumber : Nat
  sentAt : Nat
deriving DecidableEq, Repr

/-- The `drip2_contacts` selection of `process_pending_drips`:
`status != 'replied'`, `drip1_date IS NOT NULL`, `drip2_date <= now`,
`drip2_date IS NOT NULL`. -/
def dueDrip2 (now : Nat) (c : Contact) : Bool :=
  statusNeReplied c.status && c.drip1_date.isSome &&
    (match c.drip2_date with
     | some t => decide (t ≤ now)
     | none => false)

/-- The `drip3_contacts` selection of `process_pending_drips`:
`status != 'replied'`, `drip2_date IS NOT NULL`, `drip3_date <= now`,
`drip3_date IS NOT NULL`. -/
def dueDrip3 (now : Nat) (c : Contact) : Bool :=
  statusNeReplied c.status && c.drip2_date.isSome &&
    (match c.drip3_date with
     | some t => decide (t ≤ now)
     | none => false)

/-- The call `send_drip_email(contact, drip_number)` as written at
`drip_logic.py` lines 35/100/131: the imported
`mail_service.send_drip_email` has three required parameters
`(contact, drip_number, db)`, so this two-argument call raises `TypeError`
before composing or sending anything and never yields content.  The
surrounding `try` blocks catch the exception, roll back, and report
failure. -/
def send_drip_email (c : Contact) (dripNumber : Nat) : Option String := none

/-- `DripCampaignManager.send_drip2`: on content from `send_drip_email`
set `last_email_sent = now`, schedule `drip3_date = now + intervals[3]`,
and set `drip2_date = now`; on the (always-raised) `TypeError`, catch,
roll back, and return failure, leaving the contact unchanged and sending
nothing. -/
def send_drip2 (now : Nat) (c : Contact) : Contact × List SentEmail :=
  match send_drip_email c 2 with
  | some _ =>
      ({ c with
          last_email_sent := some now
          drip3_date := some (now + drip_intervals 3)
          drip2_date := some now }, [⟨c.id, 2, now⟩])
  | none => (c, [])

/-- `DripCampaignManager.send_drip3`: as `send_drip2`, with
`drip3_date = now` on success; the send always raises, so the contact is
left unchanged. -/
def send_drip3 (now : Nat) (c : Contact) : Contact × List SentEmail :=
  match send_drip_email c 3 with
  | some _ =>
      ({ c with
          last_email_sent := some now
          drip3_date := some now }, [⟨c.id, 3, now⟩])
  | none => (c, [])

/-- Per-contact effect of the drip-2 loop of `process_pending_drips`. -/
def stepDrip2 (now : Nat) (c : Contact) : Contact :=
  if dueDrip2 now c then (send_drip2 now c).1 else c

/-- Emails emitted for a contact by the drip-2 loop. -/
def emitDrip2 (now : Nat) (c : Contact) : List SentEmail :=
  if dueDrip2 now c then (send_drip2 now c).2 else []

/-- Per-contact effect of the drip-3 loop of `process_pending_drips`. -/
def stepDrip3 (now : Nat) (c : Contact) : Contact :=
  if dueDrip3 now c then (send_drip3 now c).1 else c

/-- Emails emitted for a contact by the drip-3 loop. -/
def emitDrip3 (now : Nat) (c : Contact) : List SentEmail :=
  if dueDrip3 now c then (send_drip3 now c).2 else []

/-- `DripCampaignManager.process_pending_drips`: the drip-2 selection is
materialised from the incoming state and `send_drip2` is attempted for
each selected contact; the drip-3 selection then runs against the
resulting state.  Returns the updated ledger and the list of drip emails
sent (because every `send_drip_email` call raises `TypeError`, both are in
fact unchanged/empty). -/
def process_pending_drips (now : Nat) (db : List Contact) :
    List Contact × List SentEmail :=
  let sent2 := (db.map (emitDrip2 now)).join
  let db1 := db.map (stepDrip2 now)
  let sent3 := (db1.map (emitDrip3 now)).join
  let db2 := db1.map (stepDrip3 now)
  (db2, sent2 ++ sent3)

/-- `DripCampaignManager.schedule_drip1`: attempt an immediate drip-1 send
and on success set `drip1_date = now`, `last_email_sent = now`,
`drip2_date = now + intervals[2]`; the send always raises `TypeError`, so
the failure path (rollback, return False) is always taken. -/
def schedule_drip1 (now : Nat) (c : Contact) : Contact × List SentEmail :=
  match send_drip_email c 1 with
  | some _ =>
      ({ c with
          drip1_date := some now
          last_email_sent := some now
          drip2_date := some (now + drip_intervals 2) }, [⟨c.id, 1, now⟩])
  | none => (c, [])

theorem stepDrip2_id (now : Nat) (c : Contact) : stepDrip2 now c = c := by
  unfold stepDrip2
  split <;> rfl

theorem stepDrip3_id (now : Nat) (c : Contact) : stepDrip3 now c = c := by
  unfold stepDrip3
  split <;> rfl

theorem emitDrip2_nil (now : Nat) (c : Contact) : emitDrip2 now c = [] := by
  unfold emitDrip2
  split <;> rfl

theorem emitDrip3_nil (now : Nat) (c : Contact) : emitDrip3 now c = [] := by
  unfold emitDrip3
  split <;> rfl

theorem join_map_nil (l : List Contact) :
    (l.map (fun _ => ([] : List SentEmail))).join = [] := by
  induction l with
  | nil => rfl
  | cons c cs ih => simp [ih]

/-- Because every `send_drip_email` call raises `TypeError` and is rolled
back, one invocation of `process_pending_drips` sends no email and leaves
every contact unchanged. -/
theorem process_pending_drips_noop (now : Nat) (db : List Contact) :
    process_pending_drips now db = (db, []) := by
  unfold process_pending_drips
  have hstep2 : db.map (stepDrip2 now) = db := by
    rw [List.map_congr_left (fun c _ => stepDrip2_id now c), List.map_id']
  have hstep3 : db.map (stepDrip3 now) = db := by
    rw [List.map_congr_left (fun c _ => stepDrip3_id now c), List.map_id']
  have hemit2 : (db.map (emitDrip2 now)).join = [] := by
    rw [List.map_congr_left (fun c _ => emitDrip2_nil now c), join_map_nil]
  have hemit3 : (db.map (emitDrip3 now)).join = [] := by
    rw [List.map_congr_left (fun c _ => emitDrip3_nil now c), join_map_nil]
  simp only [hstep2, hstep3, hemit2, hemit3, List.append_nil]

/-- Failing input for the C1 claim: a contact awaiting drip 1
(`mail_sent_status = 1`, status not `do_not_contact`, initial email
anchored 10 days in the past, no drip timestamps yet). -/
def c1_contact : Contact :=
  { id := 1, email := "alice@example.com", status := some "null"
    mail_sent_status := some 1, first_mail_date := some 0
    last_email_sent := some 0, drip1_date := none, drip2_date := none
    drip3_date := none }

/-- C1: the claim is wrong about the code.  At the failing input — a
contact with `mail_sent_status = 1`, status not `do_not_contact`, anchor
10 days old — `process_pending_drips` sends nothing and leaves the contact
unchanged, with `mail_sent_status` still 1 rather than 2: neither of its
selections matches a contact without drip timestamps, it never reads or
writes `mail_sent_status`, and in fact every invocation sends no email at
all and changes no contact, because every `send_drip_email` call raises
`TypeError` (the required `db` argument is missing at the call sites). -/
theorem c1_process_pending_drips_sends_no_drip1 :
    (process_pending_drips 10 [c1_contact] = ([c1_contact], []) ∧
      c1_contact.mail_sent_status = some 1) ∧
    (∀ now db, process_pending_drips now db = (db, [])) :=
  ⟨⟨process_pending_drips_noop 10 [c1_contact], rfl⟩,
    process_pending_drips_noop⟩

/-- C2: invoking `process_pending_drips` twice in immediate succession
sends no second email to any contact advanced by the first call.  The
claim holds vacuously: every `send_drip_email` call in `drip_logic.py`
raises `TypeError` (missing `db` argument), is caught and rolled back, so
neither invocation — at the same or any later time — sends any email or
advances any contact. -/
theorem c2_process_pending_drips_idempotent :
    ∀ now now2 db,
      process_pending_drips now2 (process_pending_drips now db).1 =
        ((process_pending_drips now db).1, []) ∧
      (process_pending_drips now db).2 = [] := by
  intro now now2 db
  rw [process_pending_drips_noop now db, process_pending_drips_noop now2 db]
  exact ⟨rfl, rfl⟩

/-- C5 counterexample: the default intervals are 0/3/5 days, not the
claimed 7/14/30, both in `DripCampaignManager.__init__` and in
`config.DRIP_INTERVALS`. -/
theorem c5_intervals_counterexample :
    (drip_intervals 1 == 7) = false ∧ (drip_intervals 2 == 14) = false ∧
    (drip_intervals 3 == 30) = false ∧ (DRIP_INTERVALS 1 == 7) = false ∧
    (DRIP_INTERVALS 2 == 14) = false ∧ (DRIP_INTERVALS 3 == 30) = false := by
  decide

/-- C5 amended: the default drip-interval table is 0 days for drip 1,
3 days for drip 2, and 5 days for drip 3; `DripCampaignManager.__init__`
and `config.DRIP_INTERVALS` hard-code the same `{1: 0, 2: 3, 3: 5}`. -/
theorem c5_default_intervals :
    drip_intervals 1 = 0 ∧ drip_intervals 2 = 3 ∧ drip_intervals 3 = 5 ∧
    (∀ n, DRIP_INTERVALS n = drip_intervals n) := by
  refine ⟨rfl, rfl, rfl, ?_⟩
  intro n
  match n with
  | 0 => rfl
  | 1 => rfl
  | 2 => rfl
  | 3 => rfl
  | n + 4 => rfl

end DripLogic

namespace Mail

/-! ### Python string primitives

`String.toLower`/`String.trim` from the Lean core library do not reduce in
the kernel, so the Python string operations used by `mail_service.py`
(`lower`, `strip`, `startswith`, `split`, `in`) are embedded as structural
recursion over `List Char`. -/

/-- Python `str.lower()` (ASCII case folding, as used on email addresses
and subjects). -/
def pyLower (l : List Char) : List Char := l.map Char.toLower

/-- Python `str.strip()`: drop leading and trailing whitespace. -/
def pyStrip (l : List Char) : List Char :=
  ((l.dropWhile Char.isWhitespace).reverse.dropWhile Char.isWhitespace).reverse

/-- Python `marker in text` for a nonempty `marker`. -/
def containsSub (m : List Char) : List Char → Bool
  | [] => m.isPrefixOf ([] : List Char)
  | c :: rest => m.isPrefixOf (c :: rest) || containsSub m rest

/-- Python `text.split(marker)[0]` for a nonempty `marker`: the prefix of
`text` before the first occurrence of `marker` (all of `text` if `marker`
does not occur). -/
def cutAt (m : List Char) : List Char → List Char
  | [] => []
  | c :: rest => if m.isPrefixOf (c :: rest) then [] else c :: cutAt m rest

/-- Python `text.split(sep, 1)` for a nonempty `sep`: `none` when `sep`
does not occur, otherwise the parts before and after its first
occurrence. -/
def splitFirst (sep : List Char) : List Char → Option (List Char × List Char)
  | [] => if sep.isPrefixOf ([] : List Char) then some ([], []) else none
  | c :: rest =>
      if sep.isPrefixOf (c :: rest) then some ([], (c :: rest).drop sep.length)
      else (splitFirst sep rest).map (fun p => (c :: p.1, p.2))

/-- Split on a single separator character (used for reference chains,
approximating Python `str.split()` on the space-separated `References`
header). -/
def splitOnChar (sep : Char) : List Char → List (List Char)
  | [] => [[]]
  | c :: rest =>
      match splitOnChar sep rest with
      | [] => [[]]
      | h :: t => if c == sep then [] :: h :: t else (c :: h) :: t

/-- `email.lower().strip()` as applied to contact and sender addresses. -/
def normEmail (s : String) : String := String.mk (pyStrip (pyLower s.data))

/-- Join strings with a separator (Python `' '.join(...)`). -/
def joinWith (sep : String) (xs : List String) : String :=
  String.mk (List.intercalate sep.data (xs.map String.data))

/-! ### `MailService._extract_main_reply` -/

/-- The quote-marker list of `_extract_main_reply`, in source order. -/
def markers : List (List Char) :=
  ["On ".data, "-----Original Message-----".data, "From:".data, "---".data]

/-- The first marker, in the fixed source order, occurring anywhere in the
body (the `for marker in markers: ... break` loop). -/
def firstMarker (body : List Char) : Option (List Char) :=
  markers.find? (fun m => containsSub m body)

/-- `MailService._extract_main_reply` on the character list of the body:
cut at the first occurrence of the first listed marker present, then
strip surrounding whitespace. -/
def extract_main_reply_chars (body : List Char) : List Char :=
  pyStrip
    (match firstMarker body with
     | some m => cutAt m body
     | none => body)

/-- `MailService._extract_main_reply` (source name `_extract_main_reply`). -/
def extract_main_reply (s : String) : String :=
  String.mk (extract_main_reply_chars s.data)

/-- The C9 claim's reading of the extraction, written from the spec text:
cut the body before the earliest-positioned occurrence of any quote
marker, so that everything after the earliest marker is removed. -/
def extractByEarliest (body : List Char) : List Char :=
  match (markers.filterMap (fun m => firstOccIdx m body)).min? with
  | some i => pyStrip (body.take i)
  | none => pyStrip body
where
  /-- Index of the first occurrence of `m` in the list, if any. -/
  firstOccIdx (m : List Char) : List Char → Option Nat
    | [] => if m.isPrefixOf ([] : List Char) then some 0 else none
    | c :: rest =>
        if m.isPrefixOf (c :: rest) then some 0
        else (firstOccIdx m rest).map (· + 1)

/-- The amended C9 behaviour, written independently of the source loop:
the body is cut at the first occurrence of the highest-priority marker
present — priority order `"On "`, `"-----Original Message-----"`,
`"From:"`, `"---"` — and stripped; earlier occurrences of lower-priority
markers are not considered. -/
def extractByPriority (body : List Char) : List Char :=
  if containsSub "On ".data body then pyStrip (cutAt "On ".data body)
  else if containsSub "-----Original Message-----".data body then
    pyStrip (cutAt "-----Original Message-----".data body)
  else if containsSub "From:".data body then pyStrip (cutAt "From:".data body)
  else if containsSub "---".data body then pyStrip (cutAt "---".data body)
  else pyStrip body

/-- Body exhibiting the C9 counterexample: the original-message delimiter
occurs before the `"On "` marker. -/
def c9_body : String :=
  "Thanks!\n-----Original Message-----\nOn Mon, Bob wrote:\nhi"

/-- C9 counterexample: `_extract_main_reply` does not cut at the earliest
marker occurrence.  On `c9_body` the code cuts at the later `"On "` marker
(first in the list order), so its result differs from the earliest-cut
reading of the claim and still contains the earlier
`"-----Original Message-----"` delimiter, which the claim says is
removed. -/
theorem c9_extract_counterexample :
    (extract_main_reply c9_body ==
      String.mk (extractByEarliest c9_body.data)) = false ∧
    containsSub "-----Original Message-----".data
      (extract_main_reply c9_body).data = true := by
  constructor <;> decide

/-- C9 amended: the extracted reply equals the body cut at the first
occurrence of the highest-priority marker present (priority order
`"On "`, `"-----Original Message-----"`, `"From:"`, `"---"`), stripped of
surrounding whitespace — not at the earliest-positioned marker. -/
theorem c9_extract_cuts_at_first_listed_marker :
    ∀ body, extract_main_reply_chars body = extractByPriority body := by
  intro body
  unfold extract_main_reply_chars extractByPriority firstMarker markers
  cases h1 : containsSub "On ".data body <;>
    cases h2 : containsSub "-----Original Message-----".data body <;>
      cases h3 : containsSub "From:".data body <;>
        cases h4 : containsSub "---".data body <;>
          simp [List.find?, h1, h2, h3, h4]

/-! ### Data model (`tables.py`) -/

/-- A row of the `first` table as used by `mail_service.py` (`tables.py`
mapping).  Only the columns the reply pipeline reads or writes are
carried. -/
structure Contact where
  cid : Nat
  name : String
  email : String
  company_name : String
  industry : String
  status : Option String
  mail_sent_status : Option Nat
deriving DecidableEq, Repr

/-- A row of the `content` table (`ContentInfo` in `tables.py`). -/
structure ContentInfo where
  contact_id : Nat
  email_type : String
  subject : String
  body : String
  message_id : Option String
  sentiment : Option String
  in_reply_to : Option String
  reference : Option String
deriving DecidableEq, Repr

/-- A row of the `EmailData` table (CC referral leads). -/
structure EmailData where
  cc : String
  company_name : Option String
  referred : String
deriving DecidableEq, Repr

/-- The persistent ledger the reply pipeline works against. -/
structure DB where
  contacts : List Contact
  contents : List ContentInfo
  emailData : List EmailData
deriving DecidableEq, Repr

/-- An inbound mailbox message after header parsing: `fromAddr` is
`parseaddr(msg['From'])[1]`, `fromHeader` the raw `From` header, `ccAddrs`
the parsed `Cc` addresses, `date` the `Date` header. -/
structure InMsg where
  fromAddr : String
  fromHeader : String
  date : String
  message_id : Option String
  subject : String
  body : String
  ccAddrs : List String
  references : Option String
deriving DecidableEq, Repr

/-! ### Classifier (`MailService.analyze_reply_sentiment`) -/

/-- The JSON object returned by the classification model, with every field
optional (the code reads each with a `.get` default). -/
structure AnalysisJson where
  sentimentField : Option String
  hasQueryField : Option Bool
  queriesField : Option String
  stopContactField : Option Bool
deriving DecidableEq, Repr

/-- Outcome of the classification model call: `error` covers any raised
exception (network failure or `json.loads` on malformed output), `ok j`
a successfully parsed JSON object. -/
inductive LMOutcome where
  | error : LMOutcome
  | ok : AnalysisJson → LMOutcome
deriving DecidableEq, Repr

/-- The analysis dictionary returned (besides the sentiment string) by
`analyze_reply_sentiment`. -/
structure ReplyAnalysis where
  has_query : Bool
  queries : Option String
  stop_contact : Bool
deriving DecidableEq, Repr

/-- `MailService.analyze_reply_sentiment`: reads the parsed JSON with
defaults (`sentiment` → `"NEUTRAL"`, `hasQuery` → `False`, `queries` →
`None`, with the string `'none'` mapped to `None`, `stopContact` →
`False`); any exception yields the fail-safe
`("NEUTRAL", {has_query: False, queries: None, stop_contact: False})`. -/
def analyze_reply_sentiment : LMOutcome → String × ReplyAnalysis
  | .error => ("NEUTRAL", ⟨false, none, false⟩)
  | .ok j =>
      (j.sentimentField.getD "NEUTRAL",
       ⟨j.hasQueryField.getD false,
        (match j.queriesField with
         | some q => if q = "none" then none else some q
         | none => none),
        j.stopContactField.getD false⟩)

/-! ### Environment

The pipeline's external collaborators: model calls, SMTP, and the points
at which an unexpected per-contact exception may be raised. -/

/-- Point of an unexpected exception while processing one message:
before the reply-record `db.commit()` (line 557) or after it, during
response handling. -/
inductive CrashPoint where
  | beforeCommit : CrashPoint
  | afterCommit : CrashPoint
deriving DecidableEq, Repr

/-- External collaborators of one pipeline run. -/
structure Env where
  /-- Outcome of the classification model call on the clean reply body. -/
  lm : String → LMOutcome
  /-- Model output for the per-branch response generators
  (`_get_assistant_response`), `none` meaning the call failed. -/
  responseAI : InMsg → Option String
  /-- Raw model output for `send_meeting_booking_email`
  (`Subject|||Body`), `none` meaning the chat call raised. -/
  bookingAI : InMsg → Option String
  /-- Whether `send_email` succeeds for the response to this inbound
  message (after its internal retries). -/
  sendOk : InMsg → Bool
  /-- The fresh Message-ID `make_msgid()` gives the outbound response. -/
  sendId : InMsg → String
  /-- Unexpected per-contact exception while processing this message,
  if any. -/
  raiseAt : InMsg → Option CrashPoint

/-! ### Threading headers and subjects -/

/-- The `Re:` subject computation shared by the response senders:
`subject if subject.lower().startswith("re:") else f"Re: {subject}"`. -/
def startsWithReCI (s : String) : Bool :=
  "re:".data.isPrefixOf (pyLower s.data)

/-- Outgoing subject for a reply: prefix `"Re: "` unless the inbound
subject already starts with `"re:"` case-insensitively. -/
def makeReplySubject (s : String) : String :=
  if startsWithReCI s then s else "Re: " ++ s

/-- `MailService._build_references_chain`: current Message-ID and the
whitespace-separated `References` chain extended by it. -/
def build_references_chain (m : InMsg) : String × String :=
  let current := String.mk (pyStrip (m.message_id.getD "").data)
  let prev := String.mk (pyStrip (m.references.getD "").data)
  let refs := ((splitOnChar ' ' prev.data).map String.mk).filter
    (fun r => !(r == ""))
  let refs :=
    if current ≠ "" ∧ ¬ refs.contains current then refs ++ [current]
    else refs
  (current, joinWith " " refs)

/-- `MailService._create_threaded_body`: the new text followed by a quoted
copy of the (de-quoted) original message. -/
def create_threaded_body (newText : String) (m : InMsg) : String :=
  let originalBody := extract_main_reply m.body
  newText ++ "\n\nOn " ++ m.date ++ ", " ++ m.fromHeader ++ " wrote:\n" ++
    "> " ++ joinWith "\n> " ((splitOnChar '\n' originalBody.data).map String.mk)

/-! ### Response content generation (fallback chains) -/

/-- The meeting-booking URL baked into the pipeline. -/
def booking_url : String :=
  "https://outlook.office.com/book/lol@pulpstrategy.com/s/_y6EIIzMKEWQlBg_0SarWQ2?ismsaljsauthenabled"

/-- Python `str.replace(pat, repl)` for a nonempty pattern, used for the
`[MEETING_BUTTON]` placeholder. -/
def replaceSub (pat repl : List Char) : List Char → List Char
  | [] => []
  | c :: rest =>
      if h : pat.isPrefixOf (c :: rest) ∧ pat ≠ [] then
        repl ++ replaceSub pat repl ((c :: rest).drop pat.length)
      else c :: replaceSub pat repl rest
termination_by l => l.length
decreasing_by
  · rcases h with ⟨_, hne⟩
    have hlen : 0 < pat.length := List.length_pos.mpr hne
    simp only [List.length_drop]
    exact Nat.sub_lt (Nat.succ_pos _) hlen
  · simp

/-- Python `str(x)` of an optional value: `None` prints as `"None"`
inside f-strings. -/
def pyStr : Option String → String
  | some s => s
  | none => "None"

/-- The shared signature block of the response emails. -/
def signature : String :=
  "\n\nBest regards,\nAmbika Sharma\nChief Strategist\nPulp Strategy Communications Pvt. Ltd."

/-- `MailService.generate_query_response`: model text, or the hard-coded
fallback on failure. -/
def generate_query_response (env : Env) (c : Contact) (m : InMsg) : String :=
  (env.responseAI m).getD
    ("Thank you for your interest and questions about Pulp Strategy services. While each client engagement is unique, we have helped companies in " ++
      c.industry ++ " achieve significant results, and can tailor our solutions to " ++
      c.company_name ++ " needs.")

/-- `MailService.generate_negative_response_with_query`: model text, or
the hard-coded fallback mentioning the questions. -/
def generate_negative_response_with_query (env : Env) (c : Contact) (m : InMsg)
    (queries : Option String) : String :=
  (env.responseAI m).getD
    ("Thank you for your honest feedback. I understand that our services may not be the right fit for " ++
      c.company_name ++ " at this time. Regarding your questions: " ++
      pyStr queries ++ " - I would be happy to provide some insights.")

/-- `MailService.generate_neutral_response_with_query`: model text, or the
hard-coded fallback mentioning the questions. -/
def generate_neutral_response_with_query (env : Env) (c : Contact) (m : InMsg)
    (queries : Option String) : String :=
  (env.responseAI m).getD
    ("Thank you for taking the time to respond and for your questions. Regarding your questions: " ++
      pyStr queries ++ " - I would be happy to provide detailed insights for " ++
      c.company_name ++ ".")

/-! ### The per-branch response senders

Each sender computes its subject with the shared `Re:` rule, sends the
email (success given by `Env.sendOk`), and on success records one
`ContentInfo` row in a separate, immediately committed session.  Each
`*_records` definition is the list (empty or singleton) of rows the sender
durably appends. -/

/-- Rows appended by `MailService.send_stop_contact_acknowledgment`. -/
def stop_ack_records (env : Env) (c : Contact) (m : InMsg) : List ContentInfo :=
  if env.sendOk m then
    let chain := build_references_chain m
    [{ contact_id := c.cid, email_type := "stop_contact_ack"
       subject := makeReplySubject m.subject
       body := "Hi " ++ c.name ++ ",\n\nAs requested, you have been removed from our mailing list and will not receive any further communication from us on this topic.\n\nWe appreciate you letting us know." ++ signature
       message_id := some (env.sendId m)
       sentiment := none
       in_reply_to := some chain.1, reference := some chain.2 }]
  else []

/-- Rows appended by `MailService.send_query_response_with_booking`
(POSITIVE sentiment with a query).  Note the `References` chain here is
rebuilt as `f"{References} {Message-ID}".strip()`, printing a missing
Message-ID as `"None"`. -/
def query_booking_records (env : Env) (c : Contact) (m : InMsg)
    (queries : Option String) : List ContentInfo :=
  if env.sendOk m then
    let chain := build_references_chain m
    let refsOverride := String.mk (pyStrip
      ((m.references.getD "") ++ " " ++ pyStr m.message_id).data)
    let plain_text := "Hi " ++ c.name ++ ",\n\n        " ++
      generate_query_response env c m ++
      "\n\nI believe a quick call would be the best way to dive deeper into these points and discuss how we can specifically help " ++
      c.company_name ++
      ". Please feel free to schedule a time that works best for you:\n\n" ++
      booking_url ++ signature
    [{ contact_id := c.cid, email_type := "reply_response"
       subject := makeReplySubject m.subject
       body := create_threaded_body plain_text m
       message_id := some (env.sendId m)
       sentiment := none
       in_reply_to := some chain.1, reference := some refsOverride }]
  else []

/-- Rows appended by `MailService.send_meeting_booking_email` (POSITIVE
sentiment, no query).  The model's `Subject|||Body` output may replace the
`Re:`-prefixed subject; an unparsable or empty body aborts the send. -/
def meeting_booking_records (env : Env) (c : Contact) (m : InMsg) :
    List ContentInfo :=
  match env.bookingAI m with
  | none => []
  | some ai =>
      let subject0 := makeReplySubject m.subject
      let parsed := splitFirst "|||".data ai.data
      let subject :=
        match parsed with
        | some p => if pyStrip p.1 ≠ [] then String.mk (pyStrip p.1) else subject0
        | none => subject0
      let email_body :=
        match parsed with
        | some p => String.mk p.2
        | none => ai
      if pyStrip email_body.data = [] then []
      else if env.sendOk m then
        let chain := build_references_chain m
        let plain_text_link :=
          "You can book a convenient time on my calendar here: " ++ booking_url
        let content := String.mk (replaceSub "[MEETING_BUTTON]".data
          plain_text_link.data (pyStrip email_body.data))
        [{ contact_id := c.cid, email_type := "reply_response"
           subject := subject
           body := create_threaded_body content m
           message_id := some (env.sendId m)
           sentiment := none
           in_reply_to := some chain.1, reference := some chain.2 }]
      else []

/-- Rows appended by `MailService.send_negative_response_email` (NEGATIVE
sentiment with a query). -/
def negative_response_records (env : Env) (c : Contact) (m : InMsg)
    (cleanBody : String) (queries : Option String) : List ContentInfo :=
  if env.sendOk m then
    let chain := build_references_chain m
    let content := "Hi " ++ c.name ++ ",\n\n" ++
      generate_negative_response_with_query env c m queries ++ signature
    [{ contact_id := c.cid, email_type := "reply_response"
       subject := makeReplySubject m.subject
       body := content
       message_id := some (env.sendId m)
       sentiment := none
       in_reply_to := m.message_id, reference := some chain.2 }]
  else []

/-- Rows appended by `MailService.send_acknowledgment_email` (NEGATIVE
sentiment, no query). -/
def acknowledgment_records (env : Env) (c : Contact) (m : InMsg) :
    List ContentInfo :=
  if env.sendOk m then
    let chain := build_references_chain m
    let content := "Hi " ++ c.name ++
      ",\n\nThank you for taking the time to respond. I appreciate your feedback and understand that this might not be the right fit or timing for " ++
      c.company_name ++
      ".\n\nIf circumstances change in the future or if you ever need digital marketing and strategy services, please don't hesitate to reach out." ++
      signature
    [{ contact_id := c.cid, email_type := "reply_response"
       subject := makeReplySubject m.subject
       body := content
       message_id := some (env.sendId m)
       sentiment := none
       in_reply_to := m.message_id, reference := some chain.2 }]
  else []

/-- Rows appended by `MailService.send_neutral_response_email` (NEUTRAL
sentiment with a query). -/
def neutral_response_records (env : Env) (c : Contact) (m : InMsg)
    (queries : Option String) : List ContentInfo :=
  if env.sendOk m then
    let chain := build_references_chain m
    let content := "Hi " ++ c.name ++ ",\n\n" ++
      generate_neutral_response_with_query env c m queries ++ signature
    [{ contact_id := c.cid, email_type := "reply_response"
       subject := makeReplySubject m.subject
       body := content
       message_id := some (env.sendId m)
       sentiment := none
       in_reply_to := m.message_id, reference := some chain.2 }]
  else []

/-- Rows appended by `MailService.send_neutral_acknowledgment_email`
(NEUTRAL sentiment, no query); this one records the threaded body. -/
def neutral_ack_records (env : Env) (c : Contact) (m : InMsg) :
    List ContentInfo :=
  if env.sendOk m then
    let chain := build_references_chain m
    let content := "Hi " ++ c.name ++
      ",\n\nThank you for taking the time to respond to my message. I understand you may be evaluating various options or have other priorities at the moment.\n\nIf circumstances change or if you'd like to explore how we might help " ++
      c.company_name ++ " in the future, please don't hesitate to reach out." ++
      signature
    [{ contact_id := c.cid, email_type := "reply_response"
       subject := makeReplySubject m.subject
       body := create_threaded_body content m
       message_id := some (env.sendId m)
       sentiment := none
       in_reply_to := some chain.1, reference := some chain.2 }]
  else []

/-- The sentiment dispatch of
`update_reply_status_and_check_sentiment` (steps d/e of the pipeline): the
rows durably appended for one classified reply. -/
def response_records (env : Env) (c : Contact) (m : InMsg)
    (sentiment : String) (analysis : ReplyAnalysis) (cleanBody : String) :
    List ContentInfo :=
  if analysis.stop_contact then stop_ack_records env c m
  else if sentiment = "POSITIVE" then
    if analysis.has_query then query_booking_records env c m analysis.queries
    else meeting_booking_records env c m
  else if sentiment = "NEGATIVE" then
    if analysis.has_query then
      negative_response_records env c m cleanBody analysis.queries
    else acknowledgment_records env c m
  else
    if analysis.has_query then neutral_response_records env c m analysis.queries
    else neutral_ack_records env c m

/-! ### The per-message processing loop -/

/-- The `reply` ContentInfo row persisted (and committed) for an inbound
message before any response is attempted. -/
def reply_record (c : Contact) (m : InMsg) (cleanBody sentiment : String) :
    ContentInfo :=
  { contact_id := c.cid, email_type := "reply", subject := m.subject
    body := cleanBody, message_id := m.message_id
    sentiment := some sentiment, in_reply_to := none, reference := none }

/-- `MailService._store_cc_info`: append one `EmailData` row per CC'd
address, attributed to the sender's company. -/
def store_cc_info (db : DB) (m : InMsg) : DB :=
  if m.ccAddrs.isEmpty then db
  else
    let referrer := db.contacts.find? (fun c => c.email == m.fromAddr)
    let comp := referrer.map (fun c => c.company_name)
    { db with
      emailData := db.emailData ++
        m.ccAddrs.map (fun cc => { cc := cc, company_name := comp, referred := m.fromAddr }) }

/-- `contact.status = "replied"; contact.mail_sent_status = 5` on the
matching row. -/
def set_reply_status (cts : List Contact) (cid : Nat) : List Contact :=
  cts.map fun c =>
    if c.cid == cid then
      { c with status := some "replied", mail_sent_status := some 5 }
    else c

/-- `contact.status = "do_not_contact"` on the matching row. -/
def set_do_not_contact (cts : List Contact) (cid : Nat) : List Contact :=
  cts.map fun c =>
    if c.cid == cid then { c with status := some "do_not_contact" } else c

/-- One iteration of the `for msg in email_messages:` loop of
`update_reply_status_and_check_sentiment`, over the session state
`(current view, last committed state)`.  An exception anywhere in the
iteration is caught, `db.rollback()` restores the last committed state,
and the loop continues; the reply row is committed mid-iteration
(line 557), while the status changes stay pending until a later commit. -/
def processOne (env : Env) (s : DB × DB) (m : InMsg) : DB × DB :=
  if env.raiseAt m = some .beforeCommit then (s.2, s.2)
  else
    let cur := store_cc_info s.1 m
    let sender := normEmail m.fromAddr
    match cur.contacts.find? (fun c => c.email == sender) with
    | none => (cur, s.2)
    | some contact =>
      let cleanBody := extract_main_reply m.body
      let va := analyze_reply_sentiment (env.lm cleanBody)
      let cur :=
        { cur with contents := cur.contents ++ [reply_record contact m cleanBody va.1] }
      let mark := cur
      let cur := { cur with contacts := set_reply_status cur.contacts contact.cid }
      if env.raiseAt m = some .afterCommit then (mark, mark)
      else if va.2.stop_contact then
        let cur := { cur with contacts := set_do_not_contact cur.contacts contact.cid }
        addBothList (cur, mark) (stop_ack_records env contact m)
      else if va.1 = "POSITIVE" then
        if va.2.has_query then
          addBothList (cur, mark) (query_booking_records env contact m va.2.queries)
        else addBothList (cur, mark) (meeting_booking_records env contact m)
      else if va.1 = "NEGATIVE" then
        if va.2.has_query then
          addBothList (cur, mark)
            (negative_response_records env contact m cleanBody va.2.queries)
        else addBothList (cur, mark) (acknowledgment_records env contact m)
      else
        if va.2.has_query then
          addBothList (cur, mark) (neutral_response_records env contact m va.2.queries)
        else addBothList (cur, mark) (neutral_ack_records env contact m)
where
  /-- Append rows committed by a response sender's separate session: they
  are durable, so they appear in both the current view and the committed
  state. -/
  addBothList (s : DB × DB) (rs : List ContentInfo) : DB × DB :=
    ({ s.1 with contents := s.1.contents ++ rs },
     { s.2 with contents := s.2.contents ++ rs })

/-- `MailService.update_reply_status_and_check_sentiment`: process each
message in its own guarded iteration, then issue the final
`db.commit()` (line 594), which makes the current view the committed
state. -/
def update_reply_status_and_check_sentiment (env : Env) (db : DB)
    (msgs : List InMsg) : DB :=
  (msgs.foldl (processOne env) (db, db)).1

/-- `MailService.agent_3_reply_checking`: collect the inbound messages of
the look-back window whose sender is a known contact with some
`mail_sent_status` and whose Message-ID has not been processed before
(a missing Message-ID always passes the `not in` check).
`agent_pred` is the per-message admission test. -/
def agent_pred (db : DB) (m : InMsg) : Bool :=
  let contact_emails := (db.contacts.filter
    (fun c => c.mail_sent_status.isSome)).map (fun c => normEmail c.email)
  let processed_ids := db.contents.filterMap (fun r => r.message_id)
  contact_emails.contains (normEmail m.fromAddr) &&
    (match m.message_id with
     | none => true
     | some i => !(processed_ids.contains i))

def agent_3_reply_checking (db : DB) (inbox : List InMsg) : List InMsg :=
  let contacts_with_emails := db.contacts.filter (fun c => c.mail_sent_status.isSome)
  if contacts_with_emails.isEmpty then []
  else inbox.filter (agent_pred db)

/-- `check_and_update_replies`: one run of the reply pipeline, returning
the updated ledger and the number of newly processed replies. -/
def check_and_update_replies (env : Env) (db : DB) (inbox : List InMsg) :
    DB × Nat :=
  let msgs := agent_3_reply_checking db inbox
  (update_reply_status_and_check_sentiment env db msgs, msgs.length)

/-! ### C8: classifier fail-safe -/

/-- C8: when the classification call fails — any raised exception,
including `json.loads` on malformed model output — `analyze_reply_sentiment`
returns the fail-safe default verdict (sentiment NEUTRAL, no query, no
query text, no stop request); a parsed object missing every field yields
the same default, and the literal string `'none'` never leaks into the
query text.  The function is total: it never raises and never drops a
reply. -/
theorem c8_analyze_reply_sentiment_fail_safe :
    analyze_reply_sentiment .error =
      ("NEUTRAL", ⟨false, none, false⟩) ∧
    analyze_reply_sentiment (.ok ⟨none, none, none, none⟩) =
      ("NEUTRAL", ⟨false, none, false⟩) ∧
    (∀ o, ((analyze_reply_sentiment o).2.queries == some "none") = false) := by
  refine ⟨rfl, rfl, ?_⟩
  intro o
  cases o with
  | error => rfl
  | ok j =>
      simp only [analyze_reply_sentiment]
      cases hq : j.queriesField with
      | none => rfl
      | some q =>
          by_cases h : q = "none"
          · simp [h]
          · simp [h]

/-! ### C10: the `Re:` subject rule -/

/-- Helper: prefixing a subject that does not already start with `re:`
(case-insensitively) produces one that does. -/
theorem startsWithReCI_of_prefixed (s : String) :
    startsWithReCI ("Re: " ++ s) = true := by
  show ("re:".data.isPrefixOf (pyLower (("Re: " ++ s)).data)) = true
  rw [String.data_append]
  have h4 : ("Re: ").data = ['R', 'e', ':', ' '] := rfl
  rw [h4]
  simp [pyLower, List.isPrefixOf]

/-- Helper: `"Re: Re:"` is a prefix of `"Re: " ++ s` exactly when `"Re:"`
is a prefix of `s`. -/
theorem reRe_prefix_append (s : String) :
    ("Re: Re:".data <+: ("Re: " ++ s).data) ↔ ("Re:".data <+: s.data) := by
  rw [String.data_append]
  have h7 : ("Re: Re:").data = ("Re: ").data ++ ("Re:").data := rfl
  rw [h7]
  exact List.prefix_append_right_inj _

/-- Helper: a subject starting with `"Re:"` starts with `"re:"` after
lowering. -/
theorem startsWithReCI_of_rePrefix (s : String) (h : "Re:".data <+: s.data) :
    startsWithReCI s = true := by
  show ("re:".data.isPrefixOf (pyLower s.data)) = true
  rw [List.isPrefixOf_iff_prefix]
  have := h.map Char.toLower
  simpa [pyLower] using this

/-- C10 amended: the `Re:` subject rule `subject if
subject.lower().startswith("re:") else f"Re: {subject}"` is exactly the
claimed case-insensitive conditional prefixing; it is idempotent and never
introduces a `"Re: Re:"` prefix that the inbound subject did not already
carry; and every row recorded by the direct response senders
(stop acknowledgment, negative response, negative/neutral acknowledgments,
neutral response, query-response-with-booking) carries exactly this
subject.  The exception forced by the counterexample: the meeting-booking
response may replace the subject by the model-generated one. -/
theorem c10_reply_subject_rule :
    (∀ s, makeReplySubject s = if startsWithReCI s then s else "Re: " ++ s) ∧
    (∀ s, makeReplySubject (makeReplySubject s) = makeReplySubject s) ∧
    (∀ s, ("Re: Re:".data.isPrefixOf (makeReplySubject s).data) =
        ("Re: Re:".data.isPrefixOf s.data)) ∧
    (∀ env c m, ((stop_ack_records env c m).all
        (fun r => r.subject == makeReplySubject m.subject)) = true) ∧
    (∀ env c m b q, ((negative_response_records env c m b q).all
        (fun r => r.subject == makeReplySubject m.subject)) = true) ∧
    (∀ env c m, ((acknowledgment_records env c m).all
        (fun r => r.subject == makeReplySubject m.subject)) = true) ∧
    (∀ env c m q, ((neutral_response_records env c m q).all
        (fun r => r.subject == makeReplySubject m.subject)) = true) ∧
    (∀ env c m, ((neutral_ack_records env c m).all
        (fun r => r.subject == makeReplySubject m.subject)) = true) ∧
    (∀ env c m q, ((query_booking_records env c m q).all
        (fun r => r.subject == makeReplySubject m.subject)) = true) := by
  have hidem : ∀ s, makeReplySubject (makeReplySubject s) = makeReplySubject s := by
    intro s
    by_cases h : startsWithReCI s = true
    · simp [makeReplySubject, h]
    · simp only [makeReplySubject, h, Bool.false_eq_true, if_false,
        startsWithReCI_of_prefixed, if_true]
  have hnodouble : ∀ s,
      ("Re: Re:".data.isPrefixOf (makeReplySubject s).data) =
        ("Re: Re:".data.isPrefixOf s.data) := by
    intro s
    by_cases h : startsWithReCI s = true
    · simp [makeReplySubject, h]
    · have h' : startsWithReCI s = false := by
        cases hb : startsWithReCI s
        · rfl
        · exact absurd hb h
      have hnotRe : ¬ ("Re:".data <+: s.data) := by
        intro hp
        rw [startsWithReCI_of_rePrefix s hp] at h'
        cases h'
      have hR : ("Re: Re:".data.isPrefixOf s.data) = false := by
        cases hb : ("Re: Re:".data.isPrefixOf s.data)
        · rfl
        · exfalso
          have hp := (List.isPrefixOf_iff_prefix).mp hb
          have h3 : ("Re:".data <+: "Re: Re:".data) := by decide
          exact hnotRe (h3.trans hp)
      have hL : ("Re: Re:".data.isPrefixOf ("Re: " ++ s).data) = false := by
        cases hb : ("Re: Re:".data.isPrefixOf ("Re: " ++ s).data)
        · rfl
        · exfalso
          have hp := (List.isPrefixOf_iff_prefix).mp hb
          exact hnotRe ((reRe_prefix_append s).mp hp)
      simp only [makeReplySubject, h', Bool.false_eq_true, if_false, hL, hR]
  refine ⟨fun s => rfl, hidem, hnodouble, ?_, ?_, ?_, ?_, ?_, ?_⟩
  · intro env c m
    by_cases h : env.sendOk m = true <;> simp [stop_ack_records, h]
  · intro env c m b q
    by_cases h : env.sendOk m = true <;> simp [negative_response_records, h]
  · intro env c m
    by_cases h : env.sendOk m = true <;> simp [acknowledgment_records, h]
  · intro env c m q
    by_cases h : env.sendOk m = true <;> simp [neutral_response_records, h]
  · intro env c m
    by_cases h : env.sendOk m = true <;> simp [neutral_ack_records, h]
  · intro env c m q
    by_cases h : env.sendOk m = true <;> simp [query_booking_records, h]

/-- Contact for the C10 counterexample run. -/
def c10_contact : Contact :=
  { cid := 1, name := "Bob", email := "bob@x.com", company_name := "XCo"
    industry := "Tech", status := some "null", mail_sent_status := some 2 }

/-- Ledger for the C10 counterexample run. -/
def c10_db : DB := { contacts := [c10_contact], contents := [], emailData := [] }

/-- Inbound positive reply without a query, for the C10 counterexample. -/
def c10_msg : InMsg :=
  { fromAddr := "bob@x.com", fromHeader := "Bob <bob@x.com>"
    date := "Mon, 1 Jan 2024", message_id := some "<mid1@x>"
    subject := "hello", body := "Sounds great!", ccAddrs := []
    references := none }

/-- Environment for the C10 counterexample: classification POSITIVE with
no query, model booking output `"Pricing blueprint|||..."`, sends
succeed. -/
def c10_env : Env :=
  { lm := fun _ => .ok ⟨some "POSITIVE", some false, none, some false⟩
    responseAI := fun _ => none
    bookingAI := fun _ => some "Pricing blueprint|||Hi Bob, thanks. [MEETING_BUTTON]"
    sendOk := fun _ => true
    sendId := fun _ => "<out1@x>"
    raiseAt := fun _ => none }

/-- C10 counterexample: a reply-response email sent by the pipeline whose
outgoing subject is not the inbound subject with the `Re:` rule applied.
On a known contact's positive reply without a query, the meeting-booking
sender adopts the model-generated subject `"Pricing blueprint"` instead of
`"Re: hello"`, although the inbound subject does not start with `re:`. -/
theorem c10_booking_subject_counterexample :
    ((update_reply_status_and_check_sentiment c10_env c10_db
        [c10_msg]).contents.filter
      (fun r => r.email_type == "reply_response")).map (fun r => r.subject) =
        ["Pricing blueprint"] ∧
    (("Pricing blueprint" : String) == makeReplySubject c10_msg.subject) = false ∧
    startsWithReCI c10_msg.subject = false := by
  refine ⟨by decide, by decide, by decide⟩

/-! ### Fold machinery for the batch-level claims

The ledger log (`contents`) evolves as a pure fold over the message list:
no step depends on the mutable status columns, because the contact lookup
is by email and the record builders read only the stable profile columns.
`eraseStatus` projects a contact to that stable profile. -/

/-- A contact with the mutable status columns erased; the reply pipeline
never changes this projection. -/
def eraseStatus (c : Contact) : Contact :=
  { c with status := none, mail_sent_status := none }

/-- Pure effect of one loop iteration on the ledger log. -/
def contentsStep (env : Env) (K : List Contact) (cs : List ContentInfo)
    (m : InMsg) : List ContentInfo :=
  if env.raiseAt m = some .beforeCommit then cs
  else
    match K.find? (fun c => c.email == normEmail m.fromAddr) with
    | none => cs
    | some c =>
        let cleanBody := extract_main_reply m.body
        let va := analyze_reply_sentiment (env.lm cleanBody)
        let cs1 := cs ++ [reply_record c m cleanBody va.1]
        if env.raiseAt m = some .afterCommit then cs1
        else cs1 ++ response_records env c m va.1 va.2 cleanBody

/-- Pure effect of one loop iteration on the contact rows, valid when the
iteration raises no exception. -/
def contactsStep (env : Env) (cts : List Contact) (m : InMsg) : List Contact :=
  match cts.find? (fun c => c.email == normEmail m.fromAddr) with
  | none => cts
  | some contact =>
      let va := analyze_reply_sentiment (env.lm (extract_main_reply m.body))
      let cts1 := set_reply_status cts contact.cid
      if va.2.stop_contact then set_do_not_contact cts1 contact.cid else cts1

theorem store_cc_info_contents (db : DB) (m : InMsg) :
    (store_cc_info db m).contents = db.contents := by
  unfold store_cc_info
  split <;> rfl

theorem store_cc_info_contacts (db : DB) (m : InMsg) :
    (store_cc_info db m).contacts = db.contacts := by
  unfold store_cc_info
  split <;> rfl

theorem find?_eraseStatus (cts : List Contact) (e : String) :
    (cts.map eraseStatus).find? (fun c => c.email == e) =
      (cts.find? (fun c => c.email == e)).map eraseStatus := by
  rw [List.find?_map]
  rfl

theorem set_reply_status_erase (cts : List Contact) (cid : Nat) :
    (set_reply_status cts cid).map eraseStatus = cts.map eraseStatus := by
  unfold set_reply_status
  rw [List.map_map]
  apply List.map_congr_left
  intro c _
  by_cases h : (c.cid == cid) = true <;> simp [h, Function.comp, eraseStatus]

theorem set_do_not_contact_erase (cts : List Contact) (cid : Nat) :
    (set_do_not_contact cts cid).map eraseStatus = cts.map eraseStatus := by
  unfold set_do_not_contact
  rw [List.map_map]
  apply List.map_congr_left
  intro c _
  by_cases h : (c.cid == cid) = true <;> simp [h, Function.comp, eraseStatus]

theorem reply_record_erase (c : Contact) (m : InMsg) (b s : String) :
    reply_record (eraseStatus c) m b s = reply_record c m b s := rfl

theorem response_records_erase (env : Env) (c : Contact) (m : InMsg)
    (s : String) (a : ReplyAnalysis) (b : String) :
    response_records env (eraseStatus c) m s a b =
      response_records env c m s a b := rfl


/-- Erasing the mutable status columns from the lookup table does not
change the ledger-log effect of an iteration: the lookup is by email and
the record builders read only the stable profile columns. -/
theorem contentsStep_erase (env : Env) (cts : List Contact)
    (cs : List ContentInfo) (m : InMsg) :
    contentsStep env (cts.map eraseStatus) cs m = contentsStep env cts cs m := by
  unfold contentsStep
  rw [find?_eraseStatus]
  cases hf : cts.find? (fun c => c.email == normEmail m.fromAddr) with
  | none => rfl
  | some contact =>
      simp only [Option.map, reply_record_erase, response_records_erase]

/-- One iteration of the loop: the ledger log of both the session view and
the committed state advances by the pure `contentsStep` over the current
contact rows, and the stable contact profiles are untouched. -/
theorem processOne_spec (env : Env) (s : DB × DB) (m : InMsg)
    (h1 : s.1.contents = s.2.contents)
    (h2 : s.1.contacts.map eraseStatus = s.2.contacts.map eraseStatus) :
    ((processOne env s m).1.contents =
        contentsStep env s.1.contacts s.1.contents m) ∧
    ((processOne env s m).2.contents =
        contentsStep env s.1.contacts s.1.contents m) ∧
    ((processOne env s m).1.contacts.map eraseStatus =
        s.1.contacts.map eraseStatus) ∧
    ((processOne env s m).2.contacts.map eraseStatus =
        s.1.contacts.map eraseStatus) := by
  by_cases hb : env.raiseAt m = some CrashPoint.beforeCommit
  · simp only [processOne, contentsStep, hb, if_true]
    exact ⟨h1.symm, h1.symm, h2.symm, h2.symm⟩
  · simp only [processOne, contentsStep, hb, if_false]
    rw [store_cc_info_contacts]
    cases hf : s.1.contacts.find? (fun c => c.email == normEmail m.fromAddr) with
    | none =>
        exact ⟨store_cc_info_contents s.1 m, h1.symm,
          by rw [store_cc_info_contacts], h2.symm⟩
    | some contact =>
        by_cases ha : env.raiseAt m = some CrashPoint.afterCommit
        · simp only [ha, if_true]
          refine ⟨?_, ?_, ?_, ?_⟩ <;>
            simp [store_cc_info_contents, store_cc_info_contacts]
        · simp only [ha, if_false, response_records]
          cases hstop :
              (analyze_reply_sentiment (env.lm (extract_main_reply m.body))).2.stop_contact with
          | true =>
              simp only [hstop, if_true, processOne.addBothList]
              refine ⟨?_, ?_, ?_, ?_⟩ <;>
                simp [store_cc_info_contents, store_cc_info_contacts,
                  set_reply_status_erase, set_do_not_contact_erase]
          | false =>
              simp only [hstop, Bool.false_eq_true, if_false,
                processOne.addBothList]
              split_ifs <;>
                (refine ⟨?_, ?_, ?_, ?_⟩ <;>
                  simp [store_cc_info_contents, store_cc_info_contacts,
                    set_reply_status_erase, set_do_not_contact_erase])

/-- The batch loop: the ledger log is a pure left fold of `contentsStep`
over the messages, against the (stable) contact table of the initial
state; the contact profiles survive unchanged. -/
theorem update_fold (env : Env) (msgs : List InMsg) :
    ∀ s : DB × DB, s.1.contents = s.2.contents →
      s.1.contacts.map eraseStatus = s.2.contacts.map eraseStatus →
      ((msgs.foldl (processOne env) s).1.contents =
          msgs.foldl (contentsStep env (s.1.contacts.map eraseStatus))
            s.1.contents) ∧
      ((msgs.foldl (processOne env) s).2.contents =
          msgs.foldl (contentsStep env (s.1.contacts.map eraseStatus))
            s.1.contents) ∧
      ((msgs.foldl (processOne env) s).1.contacts.map eraseStatus =
          s.1.contacts.map eraseStatus) := by
  induction msgs with
  | nil =>
      intro s h1 h2
      exact ⟨rfl, h1.symm, rfl⟩
  | cons m ms ih =>
      intro s h1 h2
      obtain ⟨e1, e2, e3, e4⟩ := processOne_spec env s m h1 h2
      obtain ⟨f1, f2, f3⟩ := ih (processOne env s m) (e1.trans e2.symm)
        (e3.trans e4.symm)
      rw [List.foldl_cons, List.foldl_cons]
      refine ⟨?_, ?_, ?_⟩
      · rw [f1, e3, e1, contentsStep_erase]
      · rw [f2, e3, e1, contentsStep_erase]
      · rw [f3, e3]

/-- The ledger log produced by one run of
`update_reply_status_and_check_sentiment` is the pure fold of
`contentsStep` over the processed messages. -/
theorem update_contents (env : Env) (db : DB) (msgs : List InMsg) :
    (update_reply_status_and_check_sentiment env db msgs).contents =
      msgs.foldl (contentsStep env (db.contacts.map eraseStatus))
        db.contents := by
  exact (update_fold env msgs (db, db) rfl rfl).1

/-- The contact profiles (everything except the mutable status columns)
are unchanged by a run of the reply pipeline. -/
theorem update_contacts_stable (env : Env) (db : DB) (msgs : List InMsg) :
    (update_reply_status_and_check_sentiment env db msgs).contacts.map
        eraseStatus = db.contacts.map eraseStatus := by
  exact (update_fold env msgs (db, db) rfl rfl).2.2

theorem contentsStep_raise_before (env : Env) (K : List Contact)
    (cs : List ContentInfo) (m : InMsg)
    (h : env.raiseAt m = some CrashPoint.beforeCommit) :
    contentsStep env K cs m = cs := by
  unfold contentsStep
  rw [if_pos h]

theorem contentsStep_sublist (env : Env) (K : List Contact)
    (cs : List ContentInfo) (m : InMsg) :
    cs.Sublist (contentsStep env K cs m) := by
  unfold contentsStep
  split
  · exact List.Sublist.refl cs
  · cases hf : K.find? (fun c => c.email == normEmail m.fromAddr) with
    | none => exact List.Sublist.refl cs
    | some c =>
        simp only
        split
        · exact List.sublist_append_left cs _
        · rw [List.append_assoc]
          exact List.sublist_append_left cs _

theorem foldl_contents_sublist (env : Env) (K : List Contact)
    (msgs : List InMsg) :
    ∀ cs : List ContentInfo, cs.Sublist (msgs.foldl (contentsStep env K) cs) := by
  induction msgs with
  | nil => intro cs; exact List.Sublist.refl cs
  | cons m ms ih =>
      intro cs
      rw [List.foldl_cons]
      exact (contentsStep_sublist env K cs m).trans (ih _)

/-- C7: an exception raised while processing one contact (at any point up
to that contact's reply-record commit) leaves the ledger log exactly as if
that message had not been in the batch — its uncommitted changes are
rolled back and every other enqueued reply, before and after it, is
processed as usual — and records already committed (by this or any earlier
run) are never lost. -/
theorem c7_per_contact_exception_isolated (env : Env) (db : DB)
    (ms1 : List InMsg) (m : InMsg) (ms2 : List InMsg)
    (h : env.raiseAt m = some CrashPoint.beforeCommit) :
    (update_reply_status_and_check_sentiment env db
        (ms1 ++ m :: ms2)).contents =
      (update_reply_status_and_check_sentiment env db (ms1 ++ ms2)).contents ∧
    db.contents.Sublist
      (update_reply_status_and_check_sentiment env db
        (ms1 ++ m :: ms2)).contents := by
  constructor
  · rw [update_contents, update_contents, List.foldl_append,
      List.foldl_append, List.foldl_cons,
      contentsStep_raise_before env _ _ m h]
  · rw [update_contents]
    exact foldl_contents_sublist env _ _ db.contents

/-! ### Counting `reply` records (C4) -/

/-- Number of `reply` rows carrying the given transport message id. -/
def replyCount (i : String) (cs : List ContentInfo) : Nat :=
  (cs.filter (fun r => (r.email_type == "reply") && (r.message_id == some i))).length

/-- Whether an iteration appends a `reply` row with message id `i`:
it must not crash before the commit, its sender must resolve to a contact,
and its Message-ID must be `i`. -/
def hits (env : Env) (K : List Contact) (i : String) (m : InMsg) : Bool :=
  (!(env.raiseAt m == some CrashPoint.beforeCommit)) &&
    (K.find? (fun c => c.email == normEmail m.fromAddr)).isSome &&
    (m.message_id == some i)

theorem replyCount_append (i : String) (cs ds : List ContentInfo) :
    replyCount i (cs ++ ds) = replyCount i cs + replyCount i ds := by
  simp [replyCount, List.filter_append]

theorem mem_stop_ack_records (env : Env) (c : Contact) (m : InMsg) :
    ∀ r ∈ stop_ack_records env c m,
      r.email_type = "stop_contact_ack" ∧ r.contact_id = c.cid := by
  intro r hr
  unfold stop_ack_records at hr
  split at hr
  · simp only [List.mem_singleton] at hr
    subst hr
    exact ⟨rfl, rfl⟩
  · cases hr

theorem mem_query_booking_records (env : Env) (c : Contact) (m : InMsg)
    (q : Option String) :
    ∀ r ∈ query_booking_records env c m q,
      r.email_type = "reply_response" ∧ r.contact_id = c.cid := by
  intro r hr
  unfold query_booking_records at hr
  split at hr
  · simp only [List.mem_singleton] at hr
    subst hr
    exact ⟨rfl, rfl⟩
  · cases hr

theorem mem_meeting_booking_records (env : Env) (c : Contact) (m : InMsg) :
    ∀ r ∈ meeting_booking_records env c m,
      r.email_type = "reply_response" ∧ r.contact_id = c.cid := by
  intro r hr
  unfold meeting_booking_records at hr
  cases hai : env.bookingAI m with
  | none =>
      rw [hai] at hr
      cases hr
  | some ai =>
      rw [hai] at hr
      dsimp only at hr
      split at hr
      · cases hr
      · split at hr
        · simp only [List.mem_singleton] at hr
          subst hr
          exact ⟨rfl, rfl⟩
        · cases hr

theorem mem_negative_response_records (env : Env) (c : Contact) (m : InMsg)
    (b : String) (q : Option String) :
    ∀ r ∈ negative_response_records env c m b q,
      r.email_type = "reply_response" ∧ r.contact_id = c.cid := by
  intro r hr
  unfold negative_response_records at hr
  split at hr
  · simp only [List.mem_singleton] at hr
    subst hr
    exact ⟨rfl, rfl⟩
  · cases hr

theorem mem_acknowledgment_records (env : Env) (c : Contact) (m : InMsg) :
    ∀ r ∈ acknowledgment_records env c m,
      r.email_type = "reply_response" ∧ r.contact_id = c.cid := by
  intro r hr
  unfold acknowledgment_records at hr
  split at hr
  · simp only [List.mem_singleton] at hr
    subst hr
    exact ⟨rfl, rfl⟩
  · cases hr

theorem mem_neutral_response_records (env : Env) (c : Contact) (m : InMsg)
    (q : Option String) :
    ∀ r ∈ neutral_response_records env c m q,
      r.email_type = "reply_response" ∧ r.contact_id = c.cid := by
  intro r hr
  unfold neutral_response_records at hr
  split at hr
  · simp only [List.mem_singleton] at hr
    subst hr
    exact ⟨rfl, rfl⟩
  · cases hr

theorem mem_neutral_ack_records (env : Env) (c : Contact) (m : InMsg) :
    ∀ r ∈ neutral_ack_records env c m,
      r.email_type = "reply_response" ∧ r.contact_id = c.cid := by
  intro r hr
  unfold neutral_ack_records at hr
  split at hr
  · simp only [List.mem_singleton] at hr
    subst hr
    exact ⟨rfl, rfl⟩
  · cases hr

/-- Every row a response sender appends is a `reply_response` or
`stop_contact_ack` row attributed to the processed contact. -/
theorem mem_response_records (env : Env) (c : Contact) (m : InMsg)
    (s : String) (a : ReplyAnalysis) (b : String) :
    ∀ r ∈ response_records env c m s a b,
      (r.email_type = "stop_contact_ack" ∨ r.email_type = "reply_response") ∧
        r.contact_id = c.cid := by
  intro r hr
  unfold response_records at hr
  split_ifs at hr
  · exact ⟨Or.inl (mem_stop_ack_records env c m r hr).1,
      (mem_stop_ack_records env c m r hr).2⟩
  · exact ⟨Or.inr (mem_query_booking_records env c m a.queries r hr).1,
      (mem_query_booking_records env c m a.queries r hr).2⟩
  · exact ⟨Or.inr (mem_meeting_booking_records env c m r hr).1,
      (mem_meeting_booking_records env c m r hr).2⟩
  · exact ⟨Or.inr (mem_negative_response_records env c m b a.queries r hr).1,
      (mem_negative_response_records env c m b a.queries r hr).2⟩
  · exact ⟨Or.inr (mem_acknowledgment_records env c m r hr).1,
      (mem_acknowledgment_records env c m r hr).2⟩
  · exact ⟨Or.inr (mem_neutral_response_records env c m a.queries r hr).1,
      (mem_neutral_response_records env c m a.queries r hr).2⟩
  · exact ⟨Or.inr (mem_neutral_ack_records env c m r hr).1,
      (mem_neutral_ack_records env c m r hr).2⟩

theorem replyCount_response_records_zero (env : Env) (c : Contact)
    (m : InMsg) (s : String) (a : ReplyAnalysis) (b : String) (i : String) :
    replyCount i (response_records env c m s a b) = 0 := by
  unfold replyCount
  rw [List.length_eq_zero, List.filter_eq_nil_iff]
  intro r hr
  rcases (mem_response_records env c m s a b r hr).1 with h | h <;>
    simp [h]

theorem replyCount_reply_record (c : Contact) (m : InMsg) (b s i : String) :
    replyCount i [reply_record c m b s] =
      if (m.message_id == some i) then 1 else 0 := by
  unfold replyCount reply_record
  cases h : (m.message_id == some i) <;> simp [h]

theorem replyCount_step (env : Env) (K : List Contact)
    (cs : List ContentInfo) (m : InMsg) (i : String) :
    replyCount i (contentsStep env K cs m) =
      replyCount i cs + (if hits env K i m then 1 else 0) := by
  unfold contentsStep hits
  by_cases hb : env.raiseAt m = some CrashPoint.beforeCommit
  · rw [if_pos hb]
    simp [hb]
  · rw [if_neg hb]
    cases hf : K.find? (fun c => c.email == normEmail m.fromAddr) with
    | none => simp [hf]
    | some c =>
        dsimp only
        have hbeq : (env.raiseAt m == some CrashPoint.beforeCommit) = false := by
          cases hx : (env.raiseAt m == some CrashPoint.beforeCommit)
          · rfl
          · exact absurd (eq_of_beq hx) hb
        by_cases ha : env.raiseAt m = some CrashPoint.afterCommit
        · rw [if_pos ha, replyCount_append, replyCount_reply_record]
          simp [hf, hbeq]
        · rw [if_neg ha, replyCount_append, replyCount_append,
            replyCount_reply_record, replyCount_response_records_zero]
          simp [hf, hbeq]

theorem replyCount_foldl (env : Env) (K : List Contact) (i : String)
    (msgs : List InMsg) :
    ∀ cs : List ContentInfo,
      replyCount i (msgs.foldl (contentsStep env K) cs) =
        replyCount i cs + msgs.countP (hits env K i) := by
  induction msgs with
  | nil => intro cs; simp
  | cons m ms ih =>
      intro cs
      rw [List.foldl_cons, ih, replyCount_step, List.countP_cons]
      omega

theorem agent3_of_guard (db : DB) (inbox : List InMsg) (cw : Contact)
    (hcw : cw ∈ db.contacts) (hcw1 : cw.mail_sent_status.isSome = true) :
    agent_3_reply_checking db inbox = inbox.filter (agent_pred db) := by
  have hne : db.contacts.filter (fun c => c.mail_sent_status.isSome) ≠ [] :=
    List.ne_nil_of_mem (List.mem_filter.mpr ⟨hcw, hcw1⟩)
  simp [agent_3_reply_checking, List.isEmpty_iff, hne]

theorem replyCount_zero (i : String) (cs : List ContentInfo)
    (h : ∀ r ∈ cs, ¬ r.message_id = some i) : replyCount i cs = 0 := by
  unfold replyCount
  rw [List.length_eq_zero, List.filter_eq_nil_iff]
  intro r hr
  simp [beq_eq_false_iff_ne.mpr (h r hr)]

theorem exists_of_replyCount_pos (i : String) (cs : List ContentInfo)
    (h : 0 < replyCount i cs) : ∃ r ∈ cs, r.message_id = some i := by
  unfold replyCount at h
  have hne : cs.filter
      (fun r => (r.email_type == "reply") && (r.message_id == some i)) ≠ [] := by
    intro hnil
    rw [hnil] at h
    simp at h
  obtain ⟨r, hr⟩ := List.exists_mem_of_ne_nil _ hne
  have h1 := List.mem_filter.mp hr
  have h2 := h1.2
  rw [Bool.and_eq_true] at h2
  exact ⟨r, h1.1, eq_of_beq h2.2⟩

theorem hits_false_of_ne (env : Env) (K : List Contact) (i : String)
    (m' : InMsg) (h : ¬ m'.message_id = some i) :
    hits env K i m' = false := by
  unfold hits
  simp [beq_eq_false_iff_ne.mpr h]

/-- C4: reply ingestion is idempotent per transport message id.  If an
inbound message with Message-ID `i` from a known contact appears once in
the inbox window, its id is not yet in the ledger, and its processing does
not crash, then one run of `check_and_update_replies` records exactly one
`reply` ContentRecord with id `i`, and a second run over the same inbox
skips the message (its Message-ID is now among the stored ContentInfo ids)
and still leaves exactly one such record. -/
theorem c4_reply_dedup (env : Env) (db : DB) (pre post : List InMsg)
    (m : InMsg) (i : String) (c0 cw : Contact)
    (hid : m.message_id = some i)
    (hpre : ∀ m' ∈ pre, ¬ m'.message_id = some i)
    (hpost : ∀ m' ∈ post, ¬ m'.message_id = some i)
    (hraise : env.raiseAt m = none)
    (hfind : db.contacts.find?
      (fun c => c.email == normEmail m.fromAddr) = some c0)
    (hcw : cw ∈ db.contacts) (hcw1 : cw.mail_sent_status.isSome = true)
    (hcw2 : normEmail cw.email = normEmail m.fromAddr)
    (hfresh : ∀ r ∈ db.contents, ¬ r.message_id = some i) :
    replyCount i
      (check_and_update_replies env db (pre ++ m :: post)).1.contents = 1 ∧
    replyCount i
      (check_and_update_replies env
        (check_and_update_replies env db (pre ++ m :: post)).1
        (pre ++ m :: post)).1.contents = 1 := by
  have hfindK : (db.contacts.map eraseStatus).find?
      (fun c => c.email == normEmail m.fromAddr) = some (eraseStatus c0) := by
    rw [find?_eraseStatus, hfind]
    rfl
  have hhit : hits env (db.contacts.map eraseStatus) i m = true := by
    unfold hits
    rw [hfindK, hid, hraise]
    simp
  have hp_m : agent_pred db m = true := by
    unfold agent_pred
    have hmem : normEmail m.fromAddr ∈
        (db.contacts.filter (fun c => c.mail_sent_status.isSome)).map
          (fun c => normEmail c.email) := by
      exact List.mem_map.mpr ⟨cw, List.mem_filter.mpr ⟨hcw, hcw1⟩, hcw2⟩
    rw [hid]
    simp [List.elem_iff.mpr hmem]
    exact ⟨⟨cw, ⟨hcw, hcw1⟩, hcw2⟩, hfresh⟩
  have hrun1 : agent_3_reply_checking db (pre ++ m :: post) =
      pre.filter (agent_pred db) ++ m :: post.filter (agent_pred db) := by
    rw [agent3_of_guard db _ cw hcw hcw1, List.filter_append,
      List.filter_cons_of_pos hp_m]
  have hcount1 : replyCount i
      (check_and_update_replies env db (pre ++ m :: post)).1.contents = 1 := by
    show replyCount i
      (update_reply_status_and_check_sentiment env db
        (agent_3_reply_checking db (pre ++ m :: post))).contents = 1
    rw [hrun1, update_contents, replyCount_foldl,
      replyCount_zero i db.contents hfresh, List.countP_append,
      List.countP_cons]
    have hz1 : (pre.filter (agent_pred db)).countP
        (hits env (db.contacts.map eraseStatus) i) = 0 := by
      rw [List.countP_eq_zero]
      intro m' hm'
      rw [hits_false_of_ne env _ i m' (hpre m' (List.mem_of_mem_filter hm'))]
      simp
    have hz2 : (post.filter (agent_pred db)).countP
        (hits env (db.contacts.map eraseStatus) i) = 0 := by
      rw [List.countP_eq_zero]
      intro m' hm'
      rw [hits_false_of_ne env _ i m' (hpost m' (List.mem_of_mem_filter hm'))]
      simp
    rw [hz1, hz2, hhit]
    simp
  refine ⟨hcount1, ?_⟩
  have hstable := update_contacts_stable env db
    (agent_3_reply_checking db (pre ++ m :: post))
  obtain ⟨r1, hr1, hr1i⟩ := exists_of_replyCount_pos i _ (by rw [hcount1]; omega)
  have hcont2 : i ∈ (check_and_update_replies env db
      (pre ++ m :: post)).1.contents.filterMap (fun r => r.message_id) :=
    List.mem_filterMap.mpr ⟨r1, hr1, hr1i⟩
  have hp2_m : agent_pred (check_and_update_replies env db (pre ++ m :: post)).1
      m = false := by
    unfold agent_pred
    rw [hid]
    simp [hcont2]
  set db1 := (check_and_update_replies env db (pre ++ m :: post)).1 with hdb1
  cases hguard : (db1.contacts.filter (fun c => c.mail_sent_status.isSome)).isEmpty with
  | true =>
      show replyCount i
        (update_reply_status_and_check_sentiment env db1
          (agent_3_reply_checking db1 (pre ++ m :: post))).contents = 1
      have : agent_3_reply_checking db1 (pre ++ m :: post) = [] := by
        unfold agent_3_reply_checking
        rw [if_pos hguard]
      rw [this]
      show replyCount i (([] : List InMsg).foldl
        (processOne env) (db1, db1)).1.contents = 1
      simpa using hcount1
  | false =>
      show replyCount i
        (update_reply_status_and_check_sentiment env db1
          (agent_3_reply_checking db1 (pre ++ m :: post))).contents = 1
      have hfilt : agent_3_reply_checking db1 (pre ++ m :: post) =
          (pre ++ m :: post).filter (agent_pred db1) := by
        unfold agent_3_reply_checking
        rw [if_neg (by rw [hguard]; exact Bool.false_ne_true)]
      rw [hfilt, update_contents, replyCount_foldl]
      have hz : ((pre ++ m :: post).filter (agent_pred db1)).countP
          (hits env (db1.contacts.map eraseStatus) i) = 0 := by
        rw [List.countP_eq_zero]
        intro m' hm'
        have hin := List.mem_filter.mp hm'
        rcases List.mem_append.mp hin.1 with hl | hr
        · rw [hits_false_of_ne env _ i m' (hpre m' hl)]
          simp
        · rcases List.mem_cons.mp hr with he | ht
          · exfalso
            rw [he] at hin
            rw [hp2_m] at hin
            exact Bool.false_ne_true hin.2
          · rw [hits_false_of_ne env _ i m' (hpost m' ht)]
            simp
      rw [hz, hcount1]

/-- Contact for the C4 witness run. -/
def c4_contact : Contact :=
  { cid := 1, name := "Bob", email := "bob@x.com", company_name := "XCo"
    industry := "Tech", status := none, mail_sent_status := some 1 }

/-- Ledger for the C4 witness run. -/
def c4_db : DB := { contacts := [c4_contact], contents := [], emailData := [] }

/-- Inbound message for the C4 witness run. -/
def c4_msg : InMsg :=
  { fromAddr := "bob@x.com", fromHeader := "Bob <bob@x.com>"
    date := "Tue, 2 Jan 2024", message_id := some "<c4@x>"
    subject := "hello", body := "Thanks, got it.", ccAddrs := []
    references := none }

/-- Environment for the C4 witness run: neutral classification, sends
succeed, no exception. -/
def c4_env : Env :=
  { lm := fun _ => .ok ⟨some "NEUTRAL", some false, none, some false⟩
    responseAI := fun _ => none
    bookingAI := fun _ => none
    sendOk := fun _ => true
    sendId := fun _ => "<out-c4@x>"
    raiseAt := fun _ => none }

/-- Witness for C4 at a concrete one-message inbox: the hypotheses hold
and both the first and the second run leave exactly one `reply` record
with the message's id. -/
theorem c4_reply_dedup_witness :
    (c4_msg.message_id = some "<c4@x>" ∧ c4_env.raiseAt c4_msg = none ∧
      c4_db.contacts.find?
        (fun c => c.email == normEmail c4_msg.fromAddr) = some c4_contact) ∧
    (replyCount "<c4@x>"
        (check_and_update_replies c4_env c4_db [c4_msg]).1.contents = 1 ∧
      replyCount "<c4@x>"
        (check_and_update_replies c4_env
          (check_and_update_replies c4_env c4_db [c4_msg]).1
          [c4_msg]).1.contents = 1) :=
  ⟨⟨rfl, rfl, by decide⟩,
    c4_reply_dedup c4_env c4_db [] [] c4_msg "<c4@x>" c4_contact c4_contact
      rfl (by simp) (by simp) rfl (by decide) (by decide) (by decide) rfl
      (by simp [c4_db])⟩

/-! ### Contact-row evolution (C6) -/

theorem processOne_contacts (env : Env) (s : DB × DB) (m : InMsg)
    (h : env.raiseAt m = none) :
    (processOne env s m).1.contacts = contactsStep env s.1.contacts m := by
  unfold processOne contactsStep
  rw [if_neg (by rw [h]; intro hx; cases hx)]
  dsimp only
  rw [store_cc_info_contacts]
  cases hf : s.1.contacts.find? (fun c => c.email == normEmail m.fromAddr) with
  | none => exact store_cc_info_contacts s.1 m
  | some contact =>
      dsimp only
      rw [if_neg (by rw [h]; intro hx; cases hx)]
      split_ifs <;> rfl

theorem update_contacts_pure (env : Env) (msgs : List InMsg) :
    ∀ s : DB × DB, (∀ m' ∈ msgs, env.raiseAt m' = none) →
      ((msgs.foldl (processOne env) s).1.contacts =
        msgs.foldl (contactsStep env) s.1.contacts) := by
  induction msgs with
  | nil => intro s _; rfl
  | cons m ms ih =>
      intro s hcf
      rw [List.foldl_cons, List.foldl_cons,
        ih (processOne env s m) (fun m' hm' => hcf m' (List.mem_cons_of_mem m hm')),
        processOne_contacts env s m (hcf m (List.mem_cons_self m ms))]

theorem set_reply_status_preserves (cts : List Contact) (cid' cid0 : Nat)
    (v : Option String) (w : Option Nat) (hne : cid' ≠ cid0)
    (hP : ∀ x ∈ cts, x.cid = cid0 → x.status = v ∧ x.mail_sent_status = w) :
    ∀ x ∈ set_reply_status cts cid', x.cid = cid0 →
      x.status = v ∧ x.mail_sent_status = w := by
  intro x hx hxc
  obtain ⟨y, hy, rfl⟩ := List.mem_map.mp hx
  by_cases h : (y.cid == cid') = true
  · exfalso
    simp only [h, if_true] at hxc
    exact hne (eq_of_beq h ▸ hxc)
  · simp only [Bool.not_eq_true] at h
    simp only [h, Bool.false_eq_true, if_false] at hxc ⊢
    exact hP y hy hxc

theorem set_do_not_contact_preserves (cts : List Contact) (cid' cid0 : Nat)
    (v : Option String) (w : Option Nat) (hne : cid' ≠ cid0)
    (hP : ∀ x ∈ cts, x.cid = cid0 → x.status = v ∧ x.mail_sent_status = w) :
    ∀ x ∈ set_do_not_contact cts cid', x.cid = cid0 →
      x.status = v ∧ x.mail_sent_status = w := by
  intro x hx hxc
  obtain ⟨y, hy, rfl⟩ := List.mem_map.mp hx
  by_cases h : (y.cid == cid') = true
  · exfalso
    simp only [h, if_true] at hxc
    exact hne (eq_of_beq h ▸ hxc)
  · simp only [Bool.not_eq_true] at h
    simp only [h, Bool.false_eq_true, if_false] at hxc ⊢
    exact hP y hy hxc

theorem contactsStep_keys (env : Env) (cts : List Contact) (m : InMsg) :
    (contactsStep env cts m).map eraseStatus = cts.map eraseStatus := by
  unfold contactsStep
  cases hf : cts.find? (fun c => c.email == normEmail m.fromAddr) with
  | none => rfl
  | some contact =>
      dsimp only
      split
      · rw [set_do_not_contact_erase, set_reply_status_erase]
      · rw [set_reply_status_erase]

/-- A message from a different (normalised) sender address never touches
the status columns of the contact with the given id. -/
theorem contactsStep_preserves (env : Env) (cts : List Contact) (m' : InMsg)
    (cid0 : Nat) (e0 : String) (v : Option String) (w : Option Nat)
    (hK0 : ∀ y ∈ cts.map eraseStatus, y.cid = cid0 → y.email = e0)
    (hne : normEmail m'.fromAddr ≠ e0)
    (hP : ∀ x ∈ cts, x.cid = cid0 → x.status = v ∧ x.mail_sent_status = w) :
    ∀ x ∈ contactsStep env cts m', x.cid = cid0 →
      x.status = v ∧ x.mail_sent_status = w := by
  unfold contactsStep
  cases hf : cts.find? (fun c => c.email == normEmail m'.fromAddr) with
  | none => exact hP
  | some contact =>
      have hpc := List.find?_some hf
      have hcemail : contact.email = normEmail m'.fromAddr := eq_of_beq hpc
      have hcid : contact.cid ≠ cid0 := by
        intro hcid
        have hyK : eraseStatus contact ∈ cts.map eraseStatus :=
          List.mem_map_of_mem eraseStatus (List.mem_of_find?_eq_some hf)
        have := hK0 (eraseStatus contact) hyK hcid
        exact hne (hcemail ▸ this)
      dsimp only
      split
      · exact set_do_not_contact_preserves _ contact.cid cid0 v w hcid
          (set_reply_status_preserves cts contact.cid cid0 v w hcid hP)
      · exact set_reply_status_preserves cts contact.cid cid0 v w hcid hP

/-- Processing a stop-contact reply from the contact leaves it with
`status = "do_not_contact"` and `mail_sent_status = 5`. -/
theorem contactsStep_stop (env : Env) (cts : List Contact) (m : InMsg)
    (c' : Contact)
    (hf : cts.find? (fun c => c.email == normEmail m.fromAddr) = some c')
    (hstop : (analyze_reply_sentiment
      (env.lm (extract_main_reply m.body))).2.stop_contact = true) :
    ∀ x ∈ contactsStep env cts m, x.cid = c'.cid →
      x.status = some "do_not_contact" ∧ x.mail_sent_status = some 5 := by
  unfold contactsStep
  rw [hf]
  dsimp only
  rw [if_pos hstop]
  intro x hx hxc
  obtain ⟨y, hy, rfl⟩ := List.mem_map.mp hx
  obtain ⟨z, hz, rfl⟩ := List.mem_map.mp hy
  by_cases h1 : (z.cid == c'.cid) = true
  · simp [h1]
  · have h1' : (z.cid == c'.cid) = false := by
      cases hb : (z.cid == c'.cid)
      · rfl
      · exact absurd hb h1
    simp only [h1', Bool.false_eq_true, if_false] at hxc
    exact absurd (beq_iff_eq.mpr hxc) (by rw [h1']; exact Bool.false_ne_true)

/-! ### Counting acknowledgment and response rows (C6) -/

/-- Number of `stop_contact_ack` rows attributed to the contact. -/
def ackCount (cid : Nat) (cs : List ContentInfo) : Nat :=
  (cs.filter (fun r =>
    (r.email_type == "stop_contact_ack") && (r.contact_id == cid))).length

/-- Number of `reply_response` rows attributed to the contact. -/
def respCount (cid : Nat) (cs : List ContentInfo) : Nat :=
  (cs.filter (fun r =>
    (r.email_type == "reply_response") && (r.contact_id == cid))).length

theorem ackCount_append (cid : Nat) (cs ds : List ContentInfo) :
    ackCount cid (cs ++ ds) = ackCount cid cs + ackCount cid ds := by
  simp [ackCount, List.filter_append]

theorem respCount_append (cid : Nat) (cs ds : List ContentInfo) :
    respCount cid (cs ++ ds) = respCount cid cs + respCount cid ds := by
  simp [respCount, List.filter_append]

theorem counts_reply_record (cid : Nat) (c : Contact) (m : InMsg)
    (b s : String) :
    ackCount cid [reply_record c m b s] = 0 ∧
      respCount cid [reply_record c m b s] = 0 := by
  constructor <;> simp [ackCount, respCount, reply_record]

theorem counts_response_records_other (env : Env) (c' : Contact) (m' : InMsg)
    (s : String) (a : ReplyAnalysis) (b : String) (cid0 : Nat)
    (h : c'.cid ≠ cid0) :
    ackCount cid0 (response_records env c' m' s a b) = 0 ∧
      respCount cid0 (response_records env c' m' s a b) = 0 := by
  constructor <;>
    · simp only [ackCount, respCount]
      rw [List.length_eq_zero, List.filter_eq_nil_iff]
      intro r hr
      have h2 := (mem_response_records env c' m' s a b r hr).2
      simp [beq_eq_false_iff_ne.mpr (h2 ▸ h : r.contact_id ≠ cid0)]

theorem contentsStep_counts_other (env : Env) (K0 : List Contact)
    (cs : List ContentInfo) (m' : InMsg) (cid0 : Nat) (e0 : String)
    (hK0 : ∀ y ∈ K0, y.cid = cid0 → y.email = e0)
    (hne : normEmail m'.fromAddr ≠ e0) :
    ackCount cid0 (contentsStep env K0 cs m') = ackCount cid0 cs ∧
      respCount cid0 (contentsStep env K0 cs m') = respCount cid0 cs := by
  unfold contentsStep
  split
  · exact ⟨rfl, rfl⟩
  · cases hf : K0.find? (fun c => c.email == normEmail m'.fromAddr) with
    | none => exact ⟨rfl, rfl⟩
    | some c' =>
        have hpc := List.find?_some hf
        have hcemail : c'.email = normEmail m'.fromAddr := eq_of_beq hpc
        have hcid : c'.cid ≠ cid0 := by
          intro hcid
          exact hne (hcemail ▸ hK0 c' (List.mem_of_find?_eq_some hf) hcid)
        dsimp only
        split
        · rw [ackCount_append, respCount_append]
          rw [(counts_reply_record cid0 c' m' _ _).1,
            (counts_reply_record cid0 c' m' _ _).2]
          exact ⟨rfl, rfl⟩
        · rw [List.append_assoc, ackCount_append, respCount_append,
            ackCount_append, respCount_append]
          rw [(counts_reply_record cid0 c' m' _ _).1,
            (counts_reply_record cid0 c' m' _ _).2,
            (counts_response_records_other env c' m' _ _ _ cid0 hcid).1,
            (counts_response_records_other env c' m' _ _ _ cid0 hcid).2]
          exact ⟨rfl, rfl⟩

theorem contentsFold_counts_other (env : Env) (K0 : List Contact)
    (msgs : List InMsg) (cid0 : Nat) (e0 : String)
    (hK0 : ∀ y ∈ K0, y.cid = cid0 → y.email = e0)
    (hne : ∀ m' ∈ msgs, normEmail m'.fromAddr ≠ e0) :
    ∀ cs : List ContentInfo,
      ackCount cid0 (msgs.foldl (contentsStep env K0) cs) = ackCount cid0 cs ∧
      respCount cid0 (msgs.foldl (contentsStep env K0) cs) =
        respCount cid0 cs := by
  induction msgs with
  | nil => intro cs; exact ⟨rfl, rfl⟩
  | cons m ms ih =>
      intro cs
      rw [List.foldl_cons]
      obtain ⟨i1, i2⟩ := ih (fun m' hm' => hne m' (List.mem_cons_of_mem m hm'))
        (contentsStep env K0 cs m)
      obtain ⟨j1, j2⟩ := contentsStep_counts_other env K0 cs m cid0 e0 hK0
        (hne m (List.mem_cons_self m ms))
      exact ⟨i1.trans j1, i2.trans j2⟩

theorem contentsStep_counts_stop (env : Env) (K0 : List Contact)
    (cs : List ContentInfo) (m : InMsg) (c0' : Contact)
    (hfK : K0.find? (fun c => c.email == normEmail m.fromAddr) = some c0')
    (hraise : env.raiseAt m = none)
    (hstop : (analyze_reply_sentiment
      (env.lm (extract_main_reply m.body))).2.stop_contact = true)
    (hsend : env.sendOk m = true) :
    ackCount c0'.cid (contentsStep env K0 cs m) = ackCount c0'.cid cs + 1 ∧
      respCount c0'.cid (contentsStep env K0 cs m) =
        respCount c0'.cid cs := by
  unfold contentsStep
  rw [if_neg (by rw [hraise]; intro hx; cases hx), hfK]
  dsimp only
  rw [if_neg (by rw [hraise]; intro hx; cases hx)]
  rw [response_records, if_pos hstop]
  unfold stop_ack_records
  rw [if_pos hsend]
  rw [List.append_assoc, ackCount_append, respCount_append,
    ackCount_append, respCount_append,
    (counts_reply_record c0'.cid c0' m _ _).1,
    (counts_reply_record c0'.cid c0' m _ _).2]
  constructor
  · simp [ackCount]
  · simp [respCount]

theorem contactsFold_keys (env : Env) (msgs : List InMsg) :
    ∀ cts : List Contact,
      (msgs.foldl (contactsStep env) cts).map eraseStatus =
        cts.map eraseStatus := by
  induction msgs with
  | nil => intro cts; rfl
  | cons m ms ih =>
      intro cts
      rw [List.foldl_cons, ih, contactsStep_keys]

theorem contactsFold_preserves (env : Env) (msgs : List InMsg) (cid0 : Nat)
    (e0 : String) (K0 : List Contact) (v : Option String) (w : Option Nat)
    (hK0 : ∀ y ∈ K0, y.cid = cid0 → y.email = e0)
    (hne : ∀ m' ∈ msgs, normEmail m'.fromAddr ≠ e0) :
    ∀ cts : List Contact, cts.map eraseStatus = K0 →
      (∀ x ∈ cts, x.cid = cid0 → x.status = v ∧ x.mail_sent_status = w) →
      (∀ x ∈ msgs.foldl (contactsStep env) cts, x.cid = cid0 →
        x.status = v ∧ x.mail_sent_status = w) := by
  induction msgs with
  | nil => intro cts _ hP; exact hP
  | cons m ms ih =>
      intro cts hK hP
      rw [List.foldl_cons]
      refine ih (fun m' hm' => hne m' (List.mem_cons_of_mem m hm'))
        (contactsStep env cts m) (by rw [contactsStep_keys, hK]) ?_
      exact contactsStep_preserves env cts m cid0 e0 v w
        (by rw [hK]; exact hK0) (hne m (List.mem_cons_self m ms)) hP

/-- C6: an inbound reply from a known contact whose classification yields
`stopContact = true`, in a crash-free batch in which no other message
shares its sender address, leaves the contact with
`status = "do_not_contact"` and `mail_sent_status = 5`, appends exactly one
`stop_contact_ack` record for that contact, and appends no sentiment-branch
`reply_response` record for it. -/
theorem c6_stop_contact_branch (env : Env) (db : DB) (pre post : List InMsg)
    (m : InMsg) (c0 : Contact)
    (hcrash : ∀ m' ∈ pre ++ m :: post, env.raiseAt m' = none)
    (hfind : db.contacts.find?
      (fun c => c.email == normEmail m.fromAddr) = some c0)
    (hstop : (analyze_reply_sentiment
      (env.lm (extract_main_reply m.body))).2.stop_contact = true)
    (hsend : env.sendOk m = true)
    (huniq : ∀ m' ∈ pre ++ post,
      normEmail m'.fromAddr ≠ normEmail m.fromAddr)
    (hnodup : (db.contacts.map (fun c => c.cid)).Nodup)
    (hack0 : ackCount c0.cid db.contents = 0) :
    (∀ x ∈ (update_reply_status_and_check_sentiment env db
        (pre ++ m :: post)).contacts, x.cid = c0.cid →
      x.status = some "do_not_contact" ∧ x.mail_sent_status = some 5) ∧
    ackCount c0.cid (update_reply_status_and_check_sentiment env db
      (pre ++ m :: post)).contents = 1 ∧
    respCount c0.cid (update_reply_status_and_check_sentiment env db
      (pre ++ m :: post)).contents = respCount c0.cid db.contents := by
  have hc0mem : c0 ∈ db.contacts := List.mem_of_find?_eq_some hfind
  have hpc0 := List.find?_some hfind
  have hc0email : c0.email = normEmail m.fromAddr := eq_of_beq hpc0
  have hK0 : ∀ y ∈ db.contacts.map eraseStatus, y.cid = c0.cid →
      y.email = normEmail m.fromAddr := by
    intro y hy hcid
    obtain ⟨z, hz, rfl⟩ := List.mem_map.mp hy
    have hz0 : z = c0 := List.inj_on_of_nodup_map hnodup hz hc0mem hcid
    rw [hz0]
    exact hc0email
  have hfindK : (db.contacts.map eraseStatus).find?
      (fun c => c.email == normEmail m.fromAddr) = some (eraseStatus c0) := by
    rw [find?_eraseStatus, hfind]
    rfl
  have hnepre : ∀ m' ∈ pre, normEmail m'.fromAddr ≠ normEmail m.fromAddr :=
    fun m' hm' => huniq m' (List.mem_append.mpr (Or.inl hm'))
  have hnepost : ∀ m' ∈ post, normEmail m'.fromAddr ≠ normEmail m.fromAddr :=
    fun m' hm' => huniq m' (List.mem_append.mpr (Or.inr hm'))
  refine ⟨?_, ?_⟩
  · -- contact rows
    have hpure := update_contacts_pure env (pre ++ m :: post) (db, db) hcrash
    unfold update_reply_status_and_check_sentiment
    rw [hpure, List.foldl_append, List.foldl_cons]
    have hkeys1 : ((pre.foldl (contactsStep env) db.contacts).map eraseStatus) =
        db.contacts.map eraseStatus := contactsFold_keys env pre db.contacts
    have hfind1 : ∃ c1 : Contact,
        (pre.foldl (contactsStep env) db.contacts).find?
          (fun c => c.email == normEmail m.fromAddr) = some c1 ∧
        eraseStatus c1 = eraseStatus c0 := by
      have := find?_eraseStatus (pre.foldl (contactsStep env) db.contacts)
        (normEmail m.fromAddr)
      rw [hkeys1, hfindK] at this
      cases hf1 : (pre.foldl (contactsStep env) db.contacts).find?
          (fun c => c.email == normEmail m.fromAddr) with
      | none => rw [hf1] at this; cases this
      | some c1 =>
          rw [hf1] at this
          exact ⟨c1, rfl, Option.some.inj this.symm⟩
    obtain ⟨c1, hf1, hc1e⟩ := hfind1
    have hc1cid : c1.cid = c0.cid := by
      have := congrArg Contact.cid hc1e
      exact this
    have hstep := contactsStep_stop env
      (pre.foldl (contactsStep env) db.contacts) m c1 hf1 hstop
    have hkeys2 : (contactsStep env (pre.foldl (contactsStep env) db.contacts)
        m).map eraseStatus = db.contacts.map eraseStatus := by
      rw [contactsStep_keys, hkeys1]
    have := contactsFold_preserves env post c0.cid (normEmail m.fromAddr)
      (db.contacts.map eraseStatus) (some "do_not_contact") (some 5)
      hK0 hnepost _ hkeys2
      (fun x hx hxc => hstep x hx (hc1cid ▸ hxc))
    exact this
  · -- ledger rows
    rw [update_contents, List.foldl_append, List.foldl_cons]
    obtain ⟨a1, r1⟩ := contentsFold_counts_other env
      (db.contacts.map eraseStatus) pre c0.cid (normEmail m.fromAddr)
      hK0 hnepre db.contents
    obtain ⟨a2, r2⟩ := contentsStep_counts_stop env
      (db.contacts.map eraseStatus)
      (pre.foldl (contentsStep env (db.contacts.map eraseStatus)) db.contents)
      m (eraseStatus c0) hfindK
      (hcrash m (List.mem_append.mpr (Or.inr (List.mem_cons_self m post))))
      hstop hsend
    obtain ⟨a3, r3⟩ := contentsFold_counts_other env
      (db.contacts.map eraseStatus) post c0.cid (normEmail m.fromAddr)
      hK0 hnepost
      (contentsStep env (db.contacts.map eraseStatus)
        (pre.foldl (contentsStep env (db.contacts.map eraseStatus)) db.contents)
        m)
    have a2c : ackCount c0.cid (contentsStep env (db.contacts.map eraseStatus)
        (pre.foldl (contentsStep env (db.contacts.map eraseStatus)) db.contents)
        m) = ackCount c0.cid
          (pre.foldl (contentsStep env (db.contacts.map eraseStatus))
            db.contents) + 1 := a2
    have r2c : respCount c0.cid (contentsStep env (db.contacts.map eraseStatus)
        (pre.foldl (contentsStep env (db.contacts.map eraseStatus)) db.contents)
        m) = respCount c0.cid
          (pre.foldl (contentsStep env (db.contacts.map eraseStatus))
            db.contents) := r2
    constructor
    · rw [a3, a2c, a1, hack0]
    · rw [r3, r2c, r1]

/-- Contact for the C6 witness run. -/
def c6_contact : Contact :=
  { cid := 1, name := "Eve", email := "eve@x.com", company_name := "ECo"
    industry := "Tech", status := some "null", mail_sent_status := some 2 }

/-- Ledger for the C6 witness run. -/
def c6_db : DB := { contacts := [c6_contact], contents := [], emailData := [] }

/-- Inbound unsubscribe request for the C6 witness run. -/
def c6_msg : InMsg :=
  { fromAddr := "eve@x.com", fromHeader := "Eve <eve@x.com>"
    date := "Wed, 3 Jan 2024", message_id := some "<c6@x>"
    subject := "hello", body := "please unsubscribe", ccAddrs := []
    references := none }

/-- Environment for the C6 witness run: the classifier reports
`stopContact = true`, sends succeed, no exception. -/
def c6_env : Env :=
  { lm := fun _ => .ok ⟨some "NEGATIVE", some false, none, some true⟩
    responseAI := fun _ => none
    bookingAI := fun _ => none
    sendOk := fun _ => true
    sendId := fun _ => "<out-c6@x>"
    raiseAt := fun _ => none }

/-- Witness for C6 at a concrete stop-contact reply: the hypotheses hold
and the pipeline leaves the contact suppressed with exactly one
acknowledgment. -/
theorem c6_stop_contact_branch_witness :
    ((analyze_reply_sentiment
        (c6_env.lm (extract_main_reply c6_msg.body))).2.stop_contact = true ∧
      c6_env.sendOk c6_msg = true ∧
      c6_db.contacts.find?
        (fun c => c.email == normEmail c6_msg.fromAddr) = some c6_contact) ∧
    ((∀ x ∈ (update_reply_status_and_check_sentiment c6_env c6_db
        [c6_msg]).contacts, x.cid = c6_contact.cid →
        x.status = some "do_not_contact" ∧ x.mail_sent_status = some 5) ∧
      ackCount c6_contact.cid
        (update_reply_status_and_check_sentiment c6_env c6_db
          [c6_msg]).contents = 1 ∧
      respCount c6_contact.cid
        (update_reply_status_and_check_sentiment c6_env c6_db
          [c6_msg]).contents = respCount c6_contact.cid c6_db.contents) :=
  ⟨⟨by decide, rfl, by decide⟩,
    c6_stop_contact_branch c6_env c6_db [] [] c6_msg c6_contact
      (fun m' _ => rfl) (by decide) (by decide) rfl (by simp) (by decide)
      (by decide)⟩

/-- Ledger for the C7 witness run: two known contacts. -/
def c7_db : DB :=
  { contacts :=
      [{ cid := 1, name := "Ann", email := "ann@x.com", company_name := "ACo"
         industry := "Tech", status := none, mail_sent_status := some 2 },
       { cid := 2, name := "Ben", email := "ben@x.com", company_name := "BCo"
         industry := "Tech", status := none, mail_sent_status := some 2 }]
    contents := [], emailData := [] }

/-- First enqueued reply of the C7 witness batch (processed normally). -/
def c7_msg1 : InMsg :=
  { fromAddr := "ann@x.com", fromHeader := "Ann <ann@x.com>"
    date := "Thu, 4 Jan 2024", message_id := some "<c7a@x>"
    subject := "hi", body := "Thanks.", ccAddrs := [], references := none }

/-- Second enqueued reply of the C7 witness batch (its processing raises
before the reply-record commit). -/
def c7_msg2 : InMsg :=
  { fromAddr := "ben@x.com", fromHeader := "Ben <ben@x.com>"
    date := "Thu, 4 Jan 2024", message_id := some "<c7b@x>"
    subject := "hi", body := "Interesting.", ccAddrs := [], references := none }

/-- Environment for the C7 witness run: processing `c7_msg2` raises an
unexpected exception before its commit; everything else is normal. -/
def c7_env : Env :=
  { lm := fun _ => .ok ⟨some "NEUTRAL", some false, none, some false⟩
    responseAI := fun _ => none
    bookingAI := fun _ => none
    sendOk := fun _ => true
    sendId := fun _ => "<out-c7@x>"
    raiseAt := fun m' =>
      if m' = c7_msg2 then some CrashPoint.beforeCommit else none }

/-- Witness for C7 at a concrete two-message batch: the second message's
processing raises, its changes are rolled back, and the batch result is
exactly that of the batch without it, with previously committed rows
kept. -/
theorem c7_per_contact_exception_isolated_witness :
    c7_env.raiseAt c7_msg2 = some CrashPoint.beforeCommit ∧
    ((update_reply_status_and_check_sentiment c7_env c7_db
        ([c7_msg1] ++ c7_msg2 :: [])).contents =
      (update_reply_status_and_check_sentiment c7_env c7_db
        ([c7_msg1] ++ [])).contents ∧
      c7_db.contents.Sublist
        (update_reply_status_and_check_sentiment c7_env c7_db
          ([c7_msg1] ++ c7_msg2 :: [])).contents) :=
  ⟨by decide,
    c7_per_contact_exception_isolated c7_env c7_db [c7_msg1] c7_msg2 []
      (by decide)⟩
/-- Failing input for the C3 claim: a contact already suppressed with
`status = "do_not_contact"` (and `mail_sent_status = 5`). -/
def c3_contact : Contact :=
  { cid := 3, name := "Dan", email := "dan@x.com", company_name := "DCo"
    industry := "Tech", status := some "do_not_contact"
    mail_sent_status := some 5 }

/-- Ledger for the C3 failing run. -/
def c3_db : DB := { contacts := [c3_contact], contents := [], emailData := [] }

/-- A later inbound reply from the suppressed contact (fresh
Message-ID). -/
def c3_msg : InMsg :=
  { fromAddr := "dan@x.com", fromHeader := "Dan <dan@x.com>"
    date := "Fri, 5 Jan 2024", message_id := some "<c3@x>"
    subject := "pricing", body := "What does it cost?", ccAddrs := []
    references := none }

/-- Environment for the C3 failing run: the reply classifies POSITIVE with
a query and no stop request; sends succeed; no exception. -/
def c3_env : Env :=
  { lm := fun _ =>
      .ok ⟨some "POSITIVE", some true, some "What does it cost?", some false⟩
    responseAI := fun _ => none
    bookingAI := fun _ => none
    sendOk := fun _ => true
    sendId := fun _ => "<out-c3@x>"
    raiseAt := fun _ => none }

set_option maxRecDepth 100000 in
/-- C3: the claim is right and the code is wrong.  The reply pipeline
never checks `status`: a contact whose status is already
`"do_not_contact"` still passes `agent_3_reply_checking` (its
`mail_sent_status` is set) and, on a later reply classified POSITIVE with
a query, `check_and_update_replies` sends it a query-response-with-booking
email — a `reply_response` row whose body carries the meeting-booking URL,
an outbound marketing email, not an acknowledgment — and overwrites its
status to `"replied"`, un-suppressing the contact.  (The drip engine
itself sends nothing at all: see the C1/C2 theorems.) -/
theorem c3_do_not_contact_receives_marketing_reply :
    c3_contact.status = some "do_not_contact" ∧
    respCount c3_contact.cid
      (check_and_update_replies c3_env c3_db [c3_msg]).1.contents = 1 ∧
    ((check_and_update_replies c3_env c3_db [c3_msg]).1.contents.filter
        (fun r => r.email_type == "reply_response")).all
      (fun r => containsSub booking_url.data r.body.data) = true ∧
    (check_and_update_replies c3_env c3_db [c3_msg]).1.contacts.map
      (fun c => c.status) = [some "replied"] := by
  refine ⟨rfl, by decide, by decide, by decide⟩

end Mail
